import Mathlib

/-
  Verification development for the CNC pendant UI
  (src/src/CNC_Pendant_UI.cpp of FluidDial-CYD).

  The embedding models the screen-navigation state machine, the sprite
  (region-cache) renderer with its per-call guard checks, the debounced
  physical-button handler, the two encoder interpretations, the touch
  dispatcher, and the persistent-rotation setting.

  Modelling conventions:
  * C++ float values are modelled as rationals: the only operations the
    code performs on them are assignment and negation, which are exact.
  * Drawing is modelled as an effect trace (Ev).  Cursor, text-color and
    text-size configuration calls are not recorded (they write no pixels);
    pixel-writing calls (sprite fills, prints, pushSprite blits, direct
    display button draws) are recorded, prints with the semantic value
    they render.  Full-screen repaint routines are abstracted to a single
    fullRepaint effect plus the sprite-(re)allocation they perform on
    entry; no claim constrains their pixel output.
  * Outbound motion-controller commands (emitted with dbg_printf in this
    test build) are modelled structurally by Cmd; pure debug logs are not
    modelled.
  * millis() is a Nat supplied per loop pass; ESP.getFreeHeap() is a Nat
    parameter of the functions that read it.
  * HIGH = true, LOW = false for digital reads.
-/

/-- The PendantScreen enumeration (PSCREEN_*).  macroMenu is PSCREEN_MACROS. -/
inductive Screen where
  | mainMenu
  | status
  | jogHoming
  | probingWork
  | probing
  | feedsSpeeds
  | spindleControl
  | macroMenu
  | sdCard
  | fluidNC
deriving DecidableEq, Repr

/-- The four sprite buffers (spriteAxisDisplay, spriteValueDisplay,
spriteStatusBar, spriteFileDisplay). -/
inductive SpriteId where
  | axisDisplay
  | valueDisplay
  | statusBar
  | fileDisplay
deriving DecidableEq, Repr

/-- Outbound commands, one constructor per wire text the UI emits. -/
inductive Cmd where
  /-- "$H<axis>" -/
  | home (axis : String)
  /-- "$J=G91 <axis><dist> F<feed>" -/
  | jog (axis : String) (dist : ℚ) (feed : Nat)
  /-- "G10 L20 P1 <axes>" -/
  | setWorkZero (axes : String)
  /-- "M3 S<rpm>" -/
  | spindleStart (rpm : Int)
  /-- "M5" -/
  | spindleStop
  /-- "!" (sent by the red button and by the yellow button outside alarm) -/
  | feedHold
  /-- "~" -/
  | cycleStart
  /-- "$X" -/
  | clearAlarm
  /-- "Executing Macro <i>" -/
  | macroCmd (i : Nat)
deriving DecidableEq, Repr

/-- Effect trace elements: pixel-writing drawing operations, blits,
commands, the press-animation pause, display rotation, full repaints. -/
inductive Ev where
  /-- fillSprite on a sprite buffer -/
  | sfill (sid : SpriteId) (color : Nat)
  /-- fillRoundRect on a sprite buffer -/
  | sfillRR (sid : SpriteId) (x y w h r : Int) (color : Nat)
  /-- print of a string on a sprite buffer -/
  | sprintS (sid : SpriteId) (text : String)
  /-- print of an integer on a sprite buffer -/
  | sprintI (sid : SpriteId) (n : Int)
  /-- print of a float (rational) on a sprite buffer -/
  | sprintQ (sid : SpriteId) (q : ℚ)
  /-- pushSprite: blit a sprite buffer to the display at (x, y) -/
  | push (sid : SpriteId) (x y : Int)
  /-- drawButton directly on the display (background color recorded) -/
  | button (x y w h : Int) (label : String) (bg : Nat)
  /-- fillRoundRect directly on the display -/
  | dfillRR (x y w h r : Int) (color : Nat)
  /-- delay_ms press animation pause -/
  | delayMs (n : Nat)
  /-- display.setRotation -/
  | setRotation (n : Int)
  /-- a full-screen repaint routine ran for the given screen -/
  | fullRepaint (scr : Screen)
  /-- an outbound command -/
  | cmd (c : Cmd)
deriving DecidableEq, Repr

/-- Color constants from cnc_pendant_config.h (RGB565 values). -/
def COLOR_BACKGROUND : Nat := 0x0000
def COLOR_DARKER_BG : Nat := 0x2104
def COLOR_ORANGE : Nat := 0xFD20
def COLOR_GREEN : Nat := 0x07E0
def COLOR_DARK_GREEN : Nat := 0x0360
def COLOR_CYAN : Nat := 0x07FF
def COLOR_BLUE : Nat := 0x1C9F
def COLOR_RED : Nat := 0xF800
def COLOR_WHITE : Nat := 0xFFFF
def COLOR_BUTTON_GRAY : Nat := 0x31A6

/-- struct MachineState (pendantMachine).  Fields that are only printed by
the abstracted full repaints (version strings, network info, free-heap
readout, work-coordinate label) are omitted. -/
structure MachineState where
  status : String
  currentFile : String
  posX : ℚ
  posY : ℚ
  posZ : ℚ
  posA : ℚ
  workX : ℚ
  workY : ℚ
  workZ : ℚ
  workA : ℚ
  feedRate : Int
  spindleRPM : Int
  spindleDir : String
  spindleRunning : Bool
  feedOverride : Int
  spindleOverride : Int
  displayRotation : String
  rotation : Int
deriving DecidableEq, Repr

/-- struct JogState (pendantJog). -/
structure JogState where
  selectedAxis : Nat
  increment : ℚ
  selectedIncrement : Nat
deriving DecidableEq, Repr

/-- struct SDCardState (pendantSdCard). -/
structure SDCardState where
  selectedFile : Int
  scrollOffset : Int
  files : List String
  fileCount : Int
deriving DecidableEq, Repr

/-- struct SpindleState (pendantSpindle). -/
structure SpindleState where
  selectedPreset : Nat
  directionFwd : Bool
deriving DecidableEq, Repr

/-- struct FeedsState (pendantFeeds). -/
structure FeedsState where
  selectedFeedOverride : Nat
  selectedSpindleOverride : Nat
deriving DecidableEq, Repr

/-- struct ProbingState (pendantProbing). -/
structure ProbingState where
  selectedCoordSystem : String
  selectedCoordIndex : Nat
deriving DecidableEq, Repr

/-- struct ProbeState (pendantProbe). -/
structure ProbeState where
  selectedProbeType : Int
  feedRate : ℚ
  maxTravel : ℚ
  toolDia : ℚ
  probeStatus : String
  lastZ : ℚ
deriving DecidableEq, Repr

/-- Sprite bookkeeping: spritesInitialized flag (spritesInit),
spritesAllocatedFor, and which of the four buffers hold an allocation. -/
structure Sprites where
  spritesInit : Bool
  allocatedFor : Screen
  hasAxis : Bool
  hasValue : Bool
  hasStatusBar : Bool
  hasFile : Bool
deriving DecidableEq, Repr

/-- The Preferences NVS store, modelled as an association list.  The
begin/end scoping calls around each access carry no state and are not
modelled. -/
abbrev Prefs : Type := List (String × Int)

/-- preferences.putInt: store an integer under a key. -/
def putInt (p : Prefs) (k : String) (v : Int) : Prefs :=
  (k, v) :: p

/-- preferences.getInt with default: first stored value for the key. -/
def getInt (p : Prefs) (k : String) (d : Int) : Int :=
  match p with
  | [] => d
  | (k', v) :: rest => if k' = k then v else getInt rest k d

/-- The whole mutable pendant state: screen variables, the telemetry /
machine record, the per-screen selection structures, sprite bookkeeping
and the persistent store. -/
structure PendantState where
  current : Screen
  previous : Screen
  machine : MachineState
  jog : JogState
  sdCard : SDCardState
  spindle : SpindleState
  feeds : FeedsState
  probing : ProbingState
  probe : ProbeState
  sprites : Sprites
  prefs : Prefs
deriving DecidableEq, Repr

/-- Initializer values of pendantMachine. -/
def pendantMachine0 : MachineState where
  status := "IDLE"
  currentFile := "No file loaded"
  posX := 0
  posY := 0
  posZ := 0
  posA := 0
  workX := 0
  workY := 0
  workZ := 0
  workA := 0
  feedRate := 1500
  spindleRPM := 12000
  spindleDir := "Fwd"
  spindleRunning := false
  feedOverride := 100
  spindleOverride := 100
  displayRotation := "Normal"
  rotation := 2

/-- Initializer values of pendantJog. -/
def pendantJog0 : JogState := ⟨0, 1, 1⟩

/-- Initializer values of pendantSdCard. -/
def pendantSdCard0 : SDCardState :=
  ⟨0, 0, ["project1.gcode", "test_cut.nc", "enclosure.gcode"], 3⟩

/-- Initializer values of pendantSpindle. -/
def pendantSpindle0 : SpindleState := ⟨2, true⟩

/-- Initializer values of pendantFeeds. -/
def pendantFeeds0 : FeedsState := ⟨2, 2⟩

/-- Initializer values of pendantProbing. -/
def pendantProbing0 : ProbingState := ⟨"G54", 0⟩

/-- Initializer values of pendantProbe. -/
def pendantProbe0 : ProbeState := ⟨-1, 100, 25, 6, "Ready", -15.234⟩

/-- Sprite bookkeeping at startup: nothing allocated, tag MAIN_MENU. -/
def sprites0 : Sprites := ⟨false, Screen.mainMenu, false, false, false, false⟩

/-- The pendant state at startup (before setup_pendant): current and
previous screen both MAIN_MENU, an empty preference store. -/
def pendant0 : PendantState :=
  ⟨Screen.mainMenu, Screen.mainMenu, pendantMachine0, pendantJog0,
   pendantSdCard0, pendantSpindle0, pendantFeeds0, pendantProbing0,
   pendantProbe0, sprites0, []⟩

/-- isTouchInBounds: the touch point (tx, ty) lies in the rectangle with
corner (x, y), width w and height h (bounds inclusive, as in the source). -/
def inB (tx ty x y w h : Int) : Prop :=
  tx ≥ x ∧ tx ≤ x + w ∧ ty ≥ y ∧ ty ≤ y + h

instance (tx ty x y w h : Int) : Decidable (inB tx ty x y w h) := by
  unfold inB
  infer_instance

/-- initSpritesForScreen: free existing sprites, heap-headroom check
(skip allocation entirely below 50000 bytes), then allocate the buffers
the screen needs and record the owner tag.  The low-heap early return
happens before the owner tag is written, exactly as in the source. -/
def initSpritesForScreen (heap : Nat) (spr : Sprites) (screen : Screen) : Sprites :=
  let spr :=
    if spr.spritesInit then
      { spr with spritesInit := false, hasAxis := false, hasValue := false,
                 hasStatusBar := false, hasFile := false }
    else spr
  if heap < 50000 then spr
  else
    let spr :=
      match screen with
      | Screen.jogHoming =>
          { spr with hasAxis := true, hasValue := true, spritesInit := true }
      | Screen.probingWork =>
          { spr with hasAxis := true, hasValue := true, spritesInit := true }
      | Screen.mainMenu =>
          { spr with hasStatusBar := true, spritesInit := true }
      | Screen.status =>
          { spr with hasStatusBar := true, hasAxis := true, hasValue := true,
                     hasFile := true, spritesInit := true }
      | Screen.spindleControl =>
          { spr with hasValue := true, spritesInit := true }
      | Screen.feedsSpeeds =>
          { spr with hasStatusBar := true, hasAxis := true, hasValue := true,
                     spritesInit := true }
      | Screen.probing =>
          { spr with hasAxis := true, hasValue := true, spritesInit := true }
      | _ => spr
    { spr with allocatedFor := screen }

/-- The axisNames table {"X", "Y", "Z", "A"}. -/
def axisNames : List String := ["X", "Y", "Z", "A"]

/-- The positions array {posX, posY, posZ, posA} built in updateJogAxisDisplay. -/
def axisPositions (m : MachineState) : List ℚ := [m.posX, m.posY, m.posZ, m.posA]

/-- updateJogAxisDisplay: guarded on spritesInitialized and the Jog screen
being current; renders the selected axis, its position, the mm unit and
the 2x2 grid of all positions into spriteAxisDisplay, then blits it. -/
def updateJogAxisDisplay (s : PendantState) : List Ev :=
  if s.sprites.spritesInit = true ∧ s.current = Screen.jogHoming then
    [Ev.sfill SpriteId.axisDisplay COLOR_DARKER_BG,
     Ev.sprintS SpriteId.axisDisplay (axisNames.getD s.jog.selectedAxis ""),
     Ev.sprintQ SpriteId.axisDisplay ((axisPositions s.machine).getD s.jog.selectedAxis 0),
     Ev.sprintS SpriteId.axisDisplay "mm",
     Ev.sprintS SpriteId.axisDisplay "X:", Ev.sprintQ SpriteId.axisDisplay s.machine.posX,
     Ev.sprintS SpriteId.axisDisplay "Y:", Ev.sprintQ SpriteId.axisDisplay s.machine.posY,
     Ev.sprintS SpriteId.axisDisplay "Z:", Ev.sprintQ SpriteId.axisDisplay s.machine.posZ,
     Ev.sprintS SpriteId.axisDisplay "A:", Ev.sprintQ SpriteId.axisDisplay s.machine.posA,
     Ev.push SpriteId.axisDisplay 5 40]
  else []

/-- updateWorkMachinePos: machine positions on the Work Area screen. -/
def updateWorkMachinePos (s : PendantState) : List Ev :=
  if s.sprites.spritesInit = true ∧ s.current = Screen.probingWork then
    [Ev.sfill SpriteId.axisDisplay COLOR_BACKGROUND,
     Ev.sprintS SpriteId.axisDisplay "X:", Ev.sprintQ SpriteId.axisDisplay s.machine.posX,
     Ev.sprintS SpriteId.axisDisplay "Y:", Ev.sprintQ SpriteId.axisDisplay s.machine.posY,
     Ev.sprintS SpriteId.axisDisplay "Z:", Ev.sprintQ SpriteId.axisDisplay s.machine.posZ,
     Ev.sprintS SpriteId.axisDisplay "A:", Ev.sprintQ SpriteId.axisDisplay s.machine.posA,
     Ev.push SpriteId.axisDisplay 5 108]
  else []

/-- updateWorkAreaPos: work positions on the Work Area screen. -/
def updateWorkAreaPos (s : PendantState) : List Ev :=
  if s.sprites.spritesInit = true ∧ s.current = Screen.probingWork then
    [Ev.sfill SpriteId.valueDisplay COLOR_BACKGROUND,
     Ev.sprintS SpriteId.valueDisplay "X:", Ev.sprintQ SpriteId.valueDisplay s.machine.workX,
     Ev.sprintS SpriteId.valueDisplay "Y:", Ev.sprintQ SpriteId.valueDisplay s.machine.workY,
     Ev.sprintS SpriteId.valueDisplay "Z:", Ev.sprintQ SpriteId.valueDisplay s.machine.workZ,
     Ev.sprintS SpriteId.valueDisplay "A:", Ev.sprintQ SpriteId.valueDisplay s.machine.workA,
     Ev.push SpriteId.valueDisplay 5 166]
  else []

/-- updateMainMenuDisplay: centered status display on the main menu. -/
def updateMainMenuDisplay (s : PendantState) : List Ev :=
  if s.sprites.spritesInit = true ∧ s.current = Screen.mainMenu then
    [Ev.sfill SpriteId.statusBar COLOR_DARKER_BG,
     Ev.sprintS SpriteId.statusBar "STATUS",
     Ev.sprintS SpriteId.statusBar s.machine.status,
     Ev.push SpriteId.statusBar 5 40]
  else []

/-- updateFeedsSpeedsTopDisplay: feed/RPM boxes atop the Feeds & Speeds
screen. -/
def updateFeedsSpeedsTopDisplay (s : PendantState) : List Ev :=
  if s.sprites.spritesInit = true ∧ s.current = Screen.feedsSpeeds then
    [Ev.sfill SpriteId.statusBar COLOR_BACKGROUND,
     Ev.sfillRR SpriteId.statusBar 0 0 112 35 5 COLOR_DARKER_BG,
     Ev.sprintS SpriteId.statusBar "FEED",
     Ev.sprintI SpriteId.statusBar s.machine.feedRate,
     Ev.sprintS SpriteId.statusBar "mm/min",
     Ev.sfillRR SpriteId.statusBar 118 0 112 35 5 COLOR_DARKER_BG,
     Ev.sprintS SpriteId.statusBar "SPINDLE",
     Ev.sprintI SpriteId.statusBar s.machine.spindleRPM,
     Ev.sprintS SpriteId.statusBar "RPM",
     Ev.push SpriteId.statusBar 5 40]
  else []

/-- updateFeedOverrideDisplay: the feed-override percentage readout. -/
def updateFeedOverrideDisplay (s : PendantState) : List Ev :=
  if s.sprites.spritesInit = true ∧ s.current = Screen.feedsSpeeds then
    [Ev.sfill SpriteId.axisDisplay COLOR_DARKER_BG,
     Ev.sprintI SpriteId.axisDisplay s.machine.feedOverride,
     Ev.sprintS SpriteId.axisDisplay "%",
     Ev.push SpriteId.axisDisplay 83 137]
  else []

/-- updateSpindleOverrideDisplay: the spindle-override percentage readout. -/
def updateSpindleOverrideDisplay (s : PendantState) : List Ev :=
  if s.sprites.spritesInit = true ∧ s.current = Screen.feedsSpeeds then
    [Ev.sfill SpriteId.valueDisplay COLOR_DARKER_BG,
     Ev.sprintI SpriteId.valueDisplay s.machine.spindleOverride,
     Ev.sprintS SpriteId.valueDisplay "%",
     Ev.push SpriteId.valueDisplay 83 236]
  else []

/-- updateSpindleRPMDisplay: RPM and direction on the Spindle Control
screen. -/
def updateSpindleRPMDisplay (s : PendantState) : List Ev :=
  if s.sprites.spritesInit = true ∧ s.current = Screen.spindleControl then
    [Ev.sfill SpriteId.valueDisplay COLOR_DARKER_BG,
     Ev.sprintS SpriteId.valueDisplay "RPM",
     Ev.sprintI SpriteId.valueDisplay s.machine.spindleRPM,
     Ev.sprintS SpriteId.valueDisplay s.machine.spindleDir,
     Ev.push SpriteId.valueDisplay 5 40]
  else []

/-- updateProbePositionDisplay: positions on the Probe screen. -/
def updateProbePositionDisplay (s : PendantState) : List Ev :=
  if s.sprites.spritesInit = true ∧ s.current = Screen.probing then
    [Ev.sfill SpriteId.axisDisplay COLOR_BACKGROUND,
     Ev.sprintS SpriteId.axisDisplay "X ", Ev.sprintQ SpriteId.axisDisplay s.machine.posX,
     Ev.sprintS SpriteId.axisDisplay "Y ", Ev.sprintQ SpriteId.axisDisplay s.machine.posY,
     Ev.sprintS SpriteId.axisDisplay "Z ", Ev.sprintQ SpriteId.axisDisplay s.machine.posZ,
     Ev.sprintS SpriteId.axisDisplay "A ", Ev.sprintQ SpriteId.axisDisplay s.machine.posA,
     Ev.push SpriteId.axisDisplay 5 57]
  else []

/-- updateProbeSettingsDisplay: probe feed-rate / max-travel settings. -/
def updateProbeSettingsDisplay (s : PendantState) : List Ev :=
  if s.sprites.spritesInit = true ∧ s.current = Screen.probing then
    [Ev.sfill SpriteId.valueDisplay COLOR_BACKGROUND,
     Ev.sprintS SpriteId.valueDisplay "Feed Rate:",
     Ev.sprintQ SpriteId.valueDisplay s.probe.feedRate,
     Ev.sprintS SpriteId.valueDisplay " mm/min",
     Ev.sprintS SpriteId.valueDisplay "Max Travel:",
     Ev.sprintQ SpriteId.valueDisplay s.probe.maxTravel,
     Ev.sprintS SpriteId.valueDisplay " mm",
     Ev.push SpriteId.valueDisplay 5 228]
  else []

/-- updateStatusCurrentFile: the current-file box on the Status screen. -/
def updateStatusCurrentFile (s : PendantState) : List Ev :=
  if s.sprites.spritesInit = true ∧ s.current = Screen.status then
    [Ev.sfillRR SpriteId.fileDisplay 0 0 230 40 5 COLOR_DARKER_BG,
     Ev.sprintS SpriteId.fileDisplay "CURRENT FILE",
     Ev.sprintS SpriteId.fileDisplay s.machine.currentFile,
     Ev.push SpriteId.fileDisplay 5 95]
  else []

/-- updateStatusMachineStatus: the machine-status box on the Status screen. -/
def updateStatusMachineStatus (s : PendantState) : List Ev :=
  if s.sprites.spritesInit = true ∧ s.current = Screen.status then
    [Ev.sfill SpriteId.statusBar COLOR_DARKER_BG,
     Ev.sprintS SpriteId.statusBar "MACHINE STATUS",
     Ev.sprintS SpriteId.statusBar s.machine.status,
     Ev.push SpriteId.statusBar 5 40]
  else []

/-- updateStatusAxisPositions: the axis-position box on the Status screen. -/
def updateStatusAxisPositions (s : PendantState) : List Ev :=
  if s.sprites.spritesInit = true ∧ s.current = Screen.status then
    [Ev.sfillRR SpriteId.axisDisplay 0 0 230 65 5 COLOR_DARKER_BG,
     Ev.sprintS SpriteId.axisDisplay "AXIS POSITIONS",
     Ev.sprintS SpriteId.axisDisplay "X:", Ev.sprintQ SpriteId.axisDisplay s.machine.posX,
     Ev.sprintS SpriteId.axisDisplay "Y:", Ev.sprintQ SpriteId.axisDisplay s.machine.posY,
     Ev.sprintS SpriteId.axisDisplay "Z:", Ev.sprintQ SpriteId.axisDisplay s.machine.posZ,
     Ev.sprintS SpriteId.axisDisplay "A:", Ev.sprintQ SpriteId.axisDisplay s.machine.posA,
     Ev.push SpriteId.axisDisplay 5 140]
  else []

/-- updateStatusFeedSpindle: the feed/spindle box on the Status screen. -/
def updateStatusFeedSpindle (s : PendantState) : List Ev :=
  if s.sprites.spritesInit = true ∧ s.current = Screen.status then
    [Ev.sfill SpriteId.valueDisplay COLOR_BACKGROUND,
     Ev.sfillRR SpriteId.valueDisplay 0 0 112 65 5 COLOR_DARKER_BG,
     Ev.sprintS SpriteId.valueDisplay "FEED",
     Ev.sprintI SpriteId.valueDisplay s.machine.feedRate,
     Ev.sprintS SpriteId.valueDisplay "mm/min",
     Ev.sfillRR SpriteId.valueDisplay 118 0 112 65 5 COLOR_DARKER_BG,
     Ev.sprintS SpriteId.valueDisplay "SPINDLE",
     Ev.sprintS SpriteId.valueDisplay s.machine.spindleDir,
     Ev.sprintI SpriteId.valueDisplay s.machine.spindleRPM,
     Ev.sprintS SpriteId.valueDisplay "RPM",
     Ev.push SpriteId.valueDisplay 5 210]
  else []

/-- Does an effect trace contain a pushSprite blit to the display? -/
def hasPush (es : List Ev) : Bool :=
  es.any fun e =>
    match e with
    | Ev.push _ _ _ => true
    | _ => false

/-- Screens whose draw routine (re)allocates sprites on entry.  The
Macros, SD Card and FluidNC draw routines do not touch sprites. -/
def screenNeedsSprites : Screen → Bool
  | Screen.macroMenu => false
  | Screen.sdCard => false
  | Screen.fluidNC => false
  | _ => true

/-- drawCurrentPendantScreen: routes to the current screen's full-repaint
routine.  Each sprite-using draw routine begins with
"if (!spritesInitialized || spritesAllocatedFor != S) initSpritesForScreen(S)";
the rest of the routine (background, static labels, first population of
the cached regions) is abstracted to one fullRepaint effect. -/
def drawCurrentPendantScreen (heap : Nat) (s : PendantState) : PendantState × List Ev :=
  let s :=
    if screenNeedsSprites s.current = true ∧
       ¬(s.sprites.spritesInit = true ∧ s.sprites.allocatedFor = s.current) then
      { s with sprites := initSpritesForScreen heap s.sprites s.current }
    else s
  (s, [Ev.fullRepaint s.current])

/-- Highlight color for a mutually-exclusive selection button. -/
def selColor (selected : Prop) [Decidable selected] : Nat :=
  if selected then COLOR_ORANGE else COLOR_BUTTON_GRAY

/-- redrawJogAxisButtons: the four axis buttons with the selection
highlight, then the axis display sprite update. -/
def redrawJogAxisButtons (s : PendantState) : List Ev :=
  if s.current ≠ Screen.jogHoming then [] else
  [Ev.button 5 115 52 38 "X" (selColor (s.jog.selectedAxis = 0)),
   Ev.button 61 115 52 38 "Y" (selColor (s.jog.selectedAxis = 1)),
   Ev.button 117 115 52 38 "Z" (selColor (s.jog.selectedAxis = 2)),
   Ev.button 173 115 52 38 "A" (selColor (s.jog.selectedAxis = 3))]
  ++ updateJogAxisDisplay s

/-- redrawJogIncrementButtons: the four jog-increment buttons. -/
def redrawJogIncrementButtons (s : PendantState) : List Ev :=
  if s.current ≠ Screen.jogHoming then [] else
  [Ev.button 5 231 52 38 "0.1" (selColor (s.jog.selectedIncrement = 0)),
   Ev.button 61 231 52 38 "1" (selColor (s.jog.selectedIncrement = 1)),
   Ev.button 117 231 52 38 "10" (selColor (s.jog.selectedIncrement = 2)),
   Ev.button 173 231 52 38 "100" (selColor (s.jog.selectedIncrement = 3))]

/-- redrawWorkCoordButtons: the four coordinate-system buttons. -/
def redrawWorkCoordButtons (s : PendantState) : List Ev :=
  if s.current ≠ Screen.probingWork then [] else
  [Ev.button 5 55 52 38 "G54" (selColor (s.probing.selectedCoordIndex = 0)),
   Ev.button 61 55 52 38 "G55" (selColor (s.probing.selectedCoordIndex = 1)),
   Ev.button 117 55 52 38 "G56" (selColor (s.probing.selectedCoordIndex = 2)),
   Ev.button 173 55 52 38 "G57" (selColor (s.probing.selectedCoordIndex = 3))]

/-- redrawFeedOverrideButtons: the five feed-override buttons, then the
feed-override readout sprite update. -/
def redrawFeedOverrideButtons (s : PendantState) : List Ev :=
  if s.current ≠ Screen.feedsSpeeds then [] else
  [Ev.button 5 95 72 37 "50%" (selColor (s.feeds.selectedFeedOverride = 0)),
   Ev.button 83 95 72 37 "75%" (selColor (s.feeds.selectedFeedOverride = 1)),
   Ev.button 161 95 72 37 "100%" (selColor (s.feeds.selectedFeedOverride = 2)),
   Ev.button 5 137 72 37 "125%" (selColor (s.feeds.selectedFeedOverride = 3)),
   Ev.button 161 137 72 37 "150%" (selColor (s.feeds.selectedFeedOverride = 4))]
  ++ updateFeedOverrideDisplay s

/-- redrawSpindleOverrideButtons: the five spindle-override buttons, then
the spindle-override readout sprite update. -/
def redrawSpindleOverrideButtons (s : PendantState) : List Ev :=
  if s.current ≠ Screen.feedsSpeeds then [] else
  [Ev.button 5 194 72 37 "50%" (selColor (s.feeds.selectedSpindleOverride = 0)),
   Ev.button 83 194 72 37 "75%" (selColor (s.feeds.selectedSpindleOverride = 1)),
   Ev.button 161 194 72 37 "100%" (selColor (s.feeds.selectedSpindleOverride = 2)),
   Ev.button 5 236 72 37 "125%" (selColor (s.feeds.selectedSpindleOverride = 3)),
   Ev.button 161 236 72 37 "150%" (selColor (s.feeds.selectedSpindleOverride = 4))]
  ++ updateSpindleOverrideDisplay s

/-- redrawSpindleDirectionButtons: Fwd/Rev buttons, then the RPM display. -/
def redrawSpindleDirectionButtons (s : PendantState) : List Ev :=
  if s.current ≠ Screen.spindleControl then [] else
  [Ev.button 5 118 112 38 "Fwd"
     (if s.spindle.directionFwd then COLOR_DARK_GREEN else COLOR_BUTTON_GRAY),
   Ev.button 123 118 112 38 "Rev"
     (if ¬s.spindle.directionFwd then COLOR_DARK_GREEN else COLOR_BUTTON_GRAY)]
  ++ updateSpindleRPMDisplay s

/-- The RPM preset table {6000, 12000, 24000}. -/
def spindlePresets : List Int := [6000, 12000, 24000]

/-- redrawSpindlePresetButtons: the three preset buttons, then the RPM
display. -/
def redrawSpindlePresetButtons (s : PendantState) : List Ev :=
  if s.current ≠ Screen.spindleControl then [] else
  [Ev.button 5 178 70 37 "6000" (selColor (s.spindle.selectedPreset = 0)),
   Ev.button 80 178 70 37 "12000" (selColor (s.spindle.selectedPreset = 1)),
   Ev.button 155 178 70 37 "24000" (selColor (s.spindle.selectedPreset = 2))]
  ++ updateSpindleRPMDisplay s

/-- handleMainMenuTouch: the 2x4 menu grid, each region a screen
transition.  btnY = 115, btnH = 47, btnGap = 52. -/
def handleMainMenuTouch (s : PendantState) (x y : Int) : PendantState × List Ev :=
  if inB x y 5 115 112 47 then ({ s with current := Screen.jogHoming }, [])
  else if inB x y 123 115 112 47 then ({ s with current := Screen.probingWork }, [])
  else if inB x y 5 167 112 47 then ({ s with current := Screen.feedsSpeeds }, [])
  else if inB x y 123 167 112 47 then ({ s with current := Screen.spindleControl }, [])
  else if inB x y 5 219 112 47 then ({ s with current := Screen.macroMenu }, [])
  else if inB x y 123 219 112 47 then ({ s with current := Screen.sdCard }, [])
  else if inB x y 5 271 112 47 then ({ s with current := Screen.probing }, [])
  else if inB x y 123 271 112 47 then ({ s with current := Screen.status }, [])
  else (s, [])

/-- The jog increment table {0.1, 1.0, 10.0, 100.0}. -/
def jogIncrements : List ℚ := [0.1, 1, 10, 100]

/-- Selecting jog axis i: set the selection and redraw the axis group. -/
def jogAxisHit (s : PendantState) (i : Nat) : PendantState × List Ev :=
  let s := { s with jog := { s.jog with selectedAxis := i } }
  (s, redrawJogAxisButtons s)

/-- Pressing home button i: press animation, then the $H command. -/
def jogHomeHit (s : PendantState) (i : Nat) : PendantState × List Ev :=
  let a := axisNames.getD i ""
  (s, [Ev.button (5 + 56 * (i : Int)) 173 52 38 a COLOR_WHITE, Ev.delayMs 150,
       Ev.button (5 + 56 * (i : Int)) 173 52 38 a COLOR_DARK_GREEN,
       Ev.cmd (Cmd.home a)])

/-- Selecting jog increment i: set both selection fields and redraw the
increment group. -/
def jogIncrementHit (s : PendantState) (i : Nat) : PendantState × List Ev :=
  let s := { s with jog := { s.jog with selectedIncrement := i,
                                        increment := jogIncrements.getD i 0 } }
  (s, redrawJogIncrementButtons s)

/-- handleJogHomingTouch: axis selection row, home row, increment row,
bottom navigation; first match wins, in the source's checking order. -/
def handleJogHomingTouch (s : PendantState) (x y : Int) : PendantState × List Ev :=
  if inB x y 5 115 52 38 then jogAxisHit s 0
  else if inB x y 61 115 52 38 then jogAxisHit s 1
  else if inB x y 117 115 52 38 then jogAxisHit s 2
  else if inB x y 173 115 52 38 then jogAxisHit s 3
  else if inB x y 5 173 52 38 then jogHomeHit s 0
  else if inB x y 61 173 52 38 then jogHomeHit s 1
  else if inB x y 117 173 52 38 then jogHomeHit s 2
  else if inB x y 173 173 52 38 then jogHomeHit s 3
  else if inB x y 5 231 52 38 then jogIncrementHit s 0
  else if inB x y 61 231 52 38 then jogIncrementHit s 1
  else if inB x y 117 231 52 38 then jogIncrementHit s 2
  else if inB x y 173 231 52 38 then jogIncrementHit s 3
  else if inB x y 5 277 112 40 then ({ s with current := Screen.mainMenu }, [])
  else if inB x y 123 277 112 40 then ({ s with current := Screen.probingWork }, [])
  else (s, [])

/-- Selecting spindle RPM preset i: set the selection, write the RPM into
the machine record, redraw the preset group. -/
def spindlePresetHit (s : PendantState) (i : Nat) : PendantState × List Ev :=
  let s := { s with spindle := { s.spindle with selectedPreset := i },
                    machine := { s.machine with spindleRPM := spindlePresets.getD i 0 } }
  (s, redrawSpindlePresetButtons s)

/-- The direction-toggle section of handleSpindleControlTouch: no early
return, so its result feeds the later checks. -/
def spindleDirectionCheck (s : PendantState) (x y : Int) : PendantState × List Ev :=
  if inB x y 5 118 112 38 then
    let s := { s with spindle := { s.spindle with directionFwd := true },
                      machine := { s.machine with spindleDir := "Fwd" } }
    (s, redrawSpindleDirectionButtons s)
  else if inB x y 123 118 112 38 then
    let s := { s with spindle := { s.spindle with directionFwd := false },
                      machine := { s.machine with spindleDir := "Rev" } }
    (s, redrawSpindleDirectionButtons s)
  else (s, [])

/-- The Start/Stop section of handleSpindleControlTouch: press animation,
M3/M5 command, spindleRunning update; also no early return. -/
def spindleStartStopCheck (d : PendantState × List Ev) (x y : Int) :
    PendantState × List Ev :=
  if inB x y 5 230 112 40 then
    ({ d.1 with machine := { d.1.machine with spindleRunning := true } },
     d.2 ++ [Ev.button 5 230 112 40 "Start" COLOR_WHITE, Ev.delayMs 150,
             Ev.button 5 230 112 40 "Start" COLOR_DARK_GREEN,
             Ev.cmd (Cmd.spindleStart d.1.machine.spindleRPM)])
  else if inB x y 123 230 112 40 then
    ({ d.1 with machine := { d.1.machine with spindleRunning := false } },
     d.2 ++ [Ev.button 123 230 112 40 "Stop" COLOR_WHITE, Ev.delayMs 150,
             Ev.button 123 230 112 40 "Stop" COLOR_RED,
             Ev.cmd Cmd.spindleStop])
  else d

/-- handleSpindleControlTouch: the direction pair and the start/stop pair
fall through to the later checks (no early return in the source); a
preset hit returns immediately. -/
def handleSpindleControlTouch (s : PendantState) (x y : Int) : PendantState × List Ev :=
  let d := spindleDirectionCheck s x y
  if inB x y 5 178 70 37 then
    ((spindlePresetHit d.1 0).1, d.2 ++ (spindlePresetHit d.1 0).2)
  else if inB x y 80 178 70 37 then
    ((spindlePresetHit d.1 1).1, d.2 ++ (spindlePresetHit d.1 1).2)
  else if inB x y 155 178 70 37 then
    ((spindlePresetHit d.1 2).1, d.2 ++ (spindlePresetHit d.1 2).2)
  else
    let d2 := spindleStartStopCheck d x y
    if inB x y 5 280 230 37 then ({ d2.1 with current := Screen.mainMenu }, d2.2)
    else d2

/-- The override percentage table {50, 75, 100, 125, 150}. -/
def overridePercents : List Int := [50, 75, 100, 125, 150]

/-- Selecting feed-override i: set the selection, write the override into
the machine record, redraw the feed-override group. -/
def feedOverrideHit (s : PendantState) (i : Nat) : PendantState × List Ev :=
  let s := { s with feeds := { s.feeds with selectedFeedOverride := i },
                    machine := { s.machine with feedOverride := overridePercents.getD i 0 } }
  (s, redrawFeedOverrideButtons s)

/-- Selecting spindle-override i: set the selection, write the override
into the machine record, redraw the spindle-override group. -/
def spindleOverrideHit (s : PendantState) (i : Nat) : PendantState × List Ev :=
  let s := { s with feeds := { s.feeds with selectedSpindleOverride := i },
                    machine := { s.machine with spindleOverride := overridePercents.getD i 0 } }
  (s, redrawSpindleOverrideButtons s)

/-- handleFeedsSpeedsTouch: two rows of feed-override buttons, two rows of
spindle-override buttons, main-menu button; first match returns. -/
def handleFeedsSpeedsTouch (s : PendantState) (x y : Int) : PendantState × List Ev :=
  if inB x y 5 95 72 37 then feedOverrideHit s 0
  else if inB x y 83 95 72 37 then feedOverrideHit s 1
  else if inB x y 161 95 72 37 then feedOverrideHit s 2
  else if inB x y 5 137 72 37 then feedOverrideHit s 3
  else if inB x y 161 137 72 37 then feedOverrideHit s 4
  else if inB x y 5 194 72 37 then spindleOverrideHit s 0
  else if inB x y 83 194 72 37 then spindleOverrideHit s 1
  else if inB x y 161 194 72 37 then spindleOverrideHit s 2
  else if inB x y 5 236 72 37 then spindleOverrideHit s 3
  else if inB x y 161 236 72 37 then spindleOverrideHit s 4
  else if inB x y 5 280 230 40 then ({ s with current := Screen.mainMenu }, [])
  else (s, [])

/-- Touching SD file row i: if the row holds a file, open it (set
currentFile) and switch to the Status screen; otherwise do nothing. -/
def sdFileHit (s : PendantState) (i : Nat) : PendantState × List Ev :=
  let displayIndex : Int := (i : Int) + s.sdCard.scrollOffset
  if displayIndex < s.sdCard.fileCount then
    ({ s with machine := { s.machine with
                 currentFile := s.sdCard.files.getD displayIndex.toNat "" },
              current := Screen.status }, [])
  else (s, [])

/-- The Back/Next section of handleSDCardTouch: scrolling with a press
animation and a full redraw, guarded by the scroll bounds. -/
def sdNavCheck (heap : Nat) (s : PendantState) (x y : Int) : PendantState × List Ev :=
  if inB x y 5 240 112 38 then
    if s.sdCard.scrollOffset > 0 then
      let s := { s with sdCard := { s.sdCard with
                   scrollOffset := s.sdCard.scrollOffset - 1 } }
      let r := drawCurrentPendantScreen heap s
      (r.1, [Ev.button 5 240 112 38 "Back" COLOR_WHITE, Ev.delayMs 150] ++ r.2)
    else (s, [])
  else if inB x y 123 240 112 38 then
    if s.sdCard.scrollOffset + 5 < s.sdCard.fileCount then
      let s := { s with sdCard := { s.sdCard with
                   scrollOffset := s.sdCard.scrollOffset + 1 } }
      let r := drawCurrentPendantScreen heap s
      (r.1, [Ev.button 123 240 112 38 "Next" COLOR_WHITE, Ev.delayMs 150] ++ r.2)
    else (s, [])
  else (s, [])

/-- handleSDCardTouch: five file rows (early return), the Back/Next
section, then the main-menu button (checked in a separate if, as in the
source). -/
def handleSDCardTouch (heap : Nat) (s : PendantState) (x y : Int) : PendantState × List Ev :=
  if inB x y 5 40 230 40 then sdFileHit s 0
  else if inB x y 5 84 230 40 then sdFileHit s 1
  else if inB x y 5 128 230 40 then sdFileHit s 2
  else if inB x y 5 172 230 40 then sdFileHit s 3
  else if inB x y 5 216 230 40 then sdFileHit s 4
  else
    let d := sdNavCheck heap s x y
    if inB x y 5 282 230 38 then ({ d.1 with current := Screen.mainMenu }, d.2)
    else d

/-- The work coordinate system table {"G54", "G55", "G56", "G57"}. -/
def coordSystems : List String := ["G54", "G55", "G56", "G57"]

/-- Selecting coordinate system i: set both selection fields and redraw
the coordinate-system group. -/
def workCoordHit (s : PendantState) (i : Nat) : PendantState × List Ev :=
  let s := { s with probing := { s.probing with
               selectedCoordIndex := i,
               selectedCoordSystem := coordSystems.getD i "" } }
  (s, redrawWorkCoordButtons s)

/-- Pressing a set-work-zero button: press animation, then the G10 command. -/
def workZeroHit (s : PendantState) (x : Int) (label : String) (w : Int)
    (axes : String) : PendantState × List Ev :=
  (s, [Ev.button x 230 w 38 label COLOR_WHITE, Ev.delayMs 150,
       Ev.button x 230 w 38 label COLOR_DARK_GREEN,
       Ev.cmd (Cmd.setWorkZero axes)])

/-- The set-work-zero section of handleProbingWorkTouch: press animation
and G10 command, no early return. -/
def workZeroCheck (s : PendantState) (x y : Int) : PendantState × List Ev :=
  if inB x y 5 230 46 38 then workZeroHit s 5 "X" 46 "X0"
  else if inB x y 52 230 46 38 then workZeroHit s 52 "Y" 46 "Y0"
  else if inB x y 99 230 46 38 then workZeroHit s 99 "Z" 46 "Z0"
  else if inB x y 146 230 46 38 then workZeroHit s 146 "A" 46 "A0"
  else if inB x y 193 230 46 38 then workZeroHit s 193 "ALL" 46 "X0 Y0 Z0 A0"
  else (s, [])

/-- handleProbingWorkTouch: coordinate-system row (early return), the
set-work-zero section, then bottom navigation (a separate if chain). -/
def handleProbingWorkTouch (s : PendantState) (x y : Int) : PendantState × List Ev :=
  if inB x y 5 55 52 38 then workCoordHit s 0
  else if inB x y 61 55 52 38 then workCoordHit s 1
  else if inB x y 117 55 52 38 then workCoordHit s 2
  else if inB x y 173 55 52 38 then workCoordHit s 3
  else
    let d := workZeroCheck s x y
    if inB x y 5 277 112 40 then ({ d.1 with current := Screen.mainMenu }, d.2)
    else if inB x y 123 277 112 40 then ({ d.1 with current := Screen.jogHoming }, d.2)
    else d

/-- Pressing macro button i: press animation, then the macro command. -/
def macroHit (s : PendantState) (i : Nat) : PendantState × List Ev :=
  let bx : Int := 5 + ((i : Int) % 2) * 118
  let by' : Int := 40 + ((i : Int) / 2) * 48
  (s, [Ev.button bx by' 112 43 ("Macro " ++ toString i) COLOR_WHITE, Ev.delayMs 150,
       Ev.button bx by' 112 43 ("Macro " ++ toString i) COLOR_BUTTON_GRAY,
       Ev.cmd (Cmd.macroCmd i)])

/-- handleMacrosTouch: the ten macro buttons (early return) then the
main-menu button. -/
def handleMacrosTouch (s : PendantState) (x y : Int) : PendantState × List Ev :=
  if inB x y 5 40 112 43 then macroHit s 0
  else if inB x y 123 40 112 43 then macroHit s 1
  else if inB x y 5 88 112 43 then macroHit s 2
  else if inB x y 123 88 112 43 then macroHit s 3
  else if inB x y 5 136 112 43 then macroHit s 4
  else if inB x y 123 136 112 43 then macroHit s 5
  else if inB x y 5 184 112 43 then macroHit s 6
  else if inB x y 123 184 112 43 then macroHit s 7
  else if inB x y 5 232 112 43 then macroHit s 8
  else if inB x y 123 232 112 43 then macroHit s 9
  else if inB x y 5 280 230 40 then ({ s with current := Screen.mainMenu }, [])
  else (s, [])

/-- Pressing probe-type button i: press animation, then record the
selection (no command is sent). -/
def probeTypeHit (s : PendantState) (i : Nat) : PendantState × List Ev :=
  let label := (["Z Surface", "Tool Height"].getD i "")
  ({ s with probe := { s.probe with selectedProbeType := (i : Int) } },
   [Ev.button 5 (116 + 43 * (i : Int)) 230 38 label COLOR_WHITE, Ev.delayMs 150,
    Ev.button 5 (116 + 43 * (i : Int)) 230 38 label
      ([COLOR_DARK_GREEN, COLOR_ORANGE].getD i 0)])

/-- handleProbingTouch: the two probe-type buttons then the main-menu
button. -/
def handleProbingTouch (s : PendantState) (x y : Int) : PendantState × List Ev :=
  if inB x y 5 116 230 38 then probeTypeHit s 0
  else if inB x y 5 159 230 38 then probeTypeHit s 1
  else if inB x y 5 280 230 40 then ({ s with current := Screen.mainMenu }, [])
  else (s, [])

/-- The per-screen dispatch switch of handlePendantTouch, including the
inline Status and FluidNC cases. -/
def dispatchTouch (heap : Nat) (s : PendantState) (x y : Int) : PendantState × List Ev :=
  match s.current with
  | Screen.mainMenu => handleMainMenuTouch s x y
  | Screen.jogHoming => handleJogHomingTouch s x y
  | Screen.spindleControl => handleSpindleControlTouch s x y
  | Screen.feedsSpeeds => handleFeedsSpeedsTouch s x y
  | Screen.sdCard => handleSDCardTouch heap s x y
  | Screen.probingWork => handleProbingWorkTouch s x y
  | Screen.probing => handleProbingTouch s x y
  | Screen.macroMenu => handleMacrosTouch s x y
  | Screen.status =>
      if inB x y 5 280 112 40 then ({ s with current := Screen.mainMenu }, [])
      else if inB x y 123 280 112 40 then ({ s with current := Screen.fluidNC }, [])
      else (s, [])
  | Screen.fluidNC =>
      if inB x y 5 264 230 40 then ({ s with current := Screen.mainMenu }, [])
      else (s, [])

/-- handlePendantTouch: dispatch on the current screen, then, if the
current screen now differs from previousPendantScreen, set
previousPendantScreen to the (new) current screen and run the full
repaint of the new screen. -/
def handlePendantTouch (heap : Nat) (s : PendantState) (x y : Int) : PendantState × List Ev :=
  let d := dispatchTouch heap s x y
  if d.1.current ≠ d.1.previous then
    let s2 : PendantState := { d.1 with previous := d.1.current }
    let r := drawCurrentPendantScreen heap s2
    (r.1, d.2 ++ r.2)
  else d

/-- Per-button debounce tracker of handlePendantPhysicalButtons:
lastDebounceTime[i], lastButtonState[i], buttonState[i] (debounced) and
buttonHandled[i]. -/
structure BtnSt where
  lastDebounceTime : Nat
  lastButtonState : Bool
  buttonState : Bool
  buttonHandled : Bool
deriving DecidableEq, Repr

/-- The debounce timer value after this sample: reset to now on a raw
level change, kept otherwise. -/
def debounceLdt (t : Nat) (reading : Bool) (s : BtnSt) : Nat :=
  if reading ≠ s.lastButtonState then t else s.lastDebounceTime

/-- The press-fire condition once the window check passes: raw LOW while
the debounced state is HIGH and the press was not yet handled. -/
def btnPress (reading : Bool) (s : BtnSt) : Bool :=
  !reading && s.buttonState && !s.buttonHandled

/-- The handled flag once the window check passes: set by a firing press,
cleared by a stable HIGH, kept otherwise. -/
def btnHandled (reading : Bool) (s : BtnSt) : Bool :=
  if btnPress reading s then true
  else if reading then false else s.buttonHandled

/-- One debounce pass for one button at time t with raw level reading:
reset the debounce timer on a raw change, then, once the level has been
stable for more than 50 ms, fire the press when the debounced state was
HIGH and the press was not yet handled, clear the handled flag on a
stable HIGH, and latch the debounced state.  Returns the new tracker and
whether the logical press fired. -/
def btnStep (t : Nat) (reading : Bool) (s : BtnSt) : BtnSt × Bool :=
  if t - debounceLdt t reading s > 50 then
    (⟨debounceLdt t reading s, reading, reading, btnHandled reading s⟩,
     btnPress reading s)
  else
    (⟨debounceLdt t reading s, reading, s.buttonState, s.buttonHandled⟩, false)

/-- Run the debounce tracker over a sample trace of (time, raw level)
pairs, counting the logical presses that fire. -/
def btnRun (s : BtnSt) : List (Nat × Bool) → BtnSt × Nat
  | [] => (s, 0)
  | (t, r) :: tr =>
      let st := btnStep t r s
      let rest := btnRun st.1 tr
      (rest.1, (if st.2 then 1 else 0) + rest.2)

/-- Whether the stability window check (elapsed > 50 ms after the timer
reset) passes at this sample. -/
def stepFires (t : Nat) (reading : Bool) (s : BtnSt) : Bool :=
  decide (t - debounceLdt t reading s > 50)

/-- A trace is bouncy from s when every sample arrives within the 50 ms
window of the last raw change, so the stability check never passes. -/
def allBouncy : BtnSt → List (Nat × Bool) → Bool
  | _, [] => true
  | s, (t, r) :: tr => !stepFires t r s && allBouncy (btnStep t r s).1 tr

/-- Some sample of the trace passes the stability window check. -/
def someFires : BtnSt → List (Nat × Bool) → Bool
  | _, [] => false
  | s, (t, r) :: tr => stepFires t r s || someFires (btnStep t r s).1 tr

/-- Every raw sample of the trace is LOW (pressed). -/
def allLow (tr : List (Nat × Bool)) : Bool := tr.all fun p => p.2 = false

/-- Every raw sample of the trace is HIGH (released). -/
def allHigh (tr : List (Nat × Bool)) : Bool := tr.all fun p => p.2 = true

/-- The switch body of handlePendantPhysicalButtons for button i:
red (0) sends "!" and forces ALARM; yellow (1) is context-sensitive:
"$X" and IDLE when the status reads ALARM at press time, otherwise "!"
and HOLD; green (2) sends "~" and forces RUN. -/
def buttonAction (i : Fin 3) (m : MachineState) : MachineState × Cmd :=
  match i with
  | 0 => ({ m with status := "ALARM" }, Cmd.feedHold)
  | 1 =>
      if m.status = "ALARM" then ({ m with status := "IDLE" }, Cmd.clearAlarm)
      else ({ m with status := "HOLD" }, Cmd.feedHold)
  | 2 => ({ m with status := "RUN" }, Cmd.cycleStart)

/-- handlePendantPhysicalButtons: run the three debounce trackers in
order on this pass's raw readings; each press that fires performs its
switch action and then a full repaint of the current screen. -/
def handlePendantPhysicalButtons (heap t : Nat) (r0 r1 r2 : Bool)
    (b0 b1 b2 : BtnSt) (s : PendantState) :
    (BtnSt × BtnSt × BtnSt) × PendantState × List Ev :=
  let st0 := btnStep t r0 b0
  let d0 : PendantState × List Ev :=
    if st0.2 then
      let a := buttonAction 0 s.machine
      let r := drawCurrentPendantScreen heap { s with machine := a.1 }
      (r.1, Ev.cmd a.2 :: r.2)
    else (s, [])
  let st1 := btnStep t r1 b1
  let d1 : PendantState × List Ev :=
    if st1.2 then
      let a := buttonAction 1 d0.1.machine
      let r := drawCurrentPendantScreen heap { d0.1 with machine := a.1 }
      (r.1, d0.2 ++ (Ev.cmd a.2 :: r.2))
    else d0
  let st2 := btnStep t r2 b2
  let d2 : PendantState × List Ev :=
    if st2.2 then
      let a := buttonAction 2 d1.1.machine
      let r := drawCurrentPendantScreen heap { d1.1 with machine := a.1 }
      (r.1, d1.2 ++ (Ev.cmd a.2 :: r.2))
    else d1
  ((st0.1, st1.1, st2.1), d2)

/-- The jog-encoder statics of loop_pendant: lastJogEncoderCLK and
lastJogTime. -/
structure EncJogSt where
  lastJogEncoderCLK : Bool
  lastJogTime : Nat
deriving DecidableEq, Repr

/-- The jog-dial encoder block of loop_pendant: active only while the
Jog & Homing screen is current (statics are not even updated otherwise).
On a CLK HIGH-to-LOW transition that passes the 50 ms window, DT HIGH
means clockwise; the jog distance is the selected increment, negated for
counter-clockwise, and one $J=G91 command is emitted at fixed feed 1000. -/
def encoderJogStep (t : Nat) (clk dt : Bool) (e : EncJogSt) (s : PendantState) :
    EncJogSt × List Ev :=
  if s.current = Screen.jogHoming then
    if clk ≠ e.lastJogEncoderCLK ∧ clk = false then
      if t - e.lastJogTime > 50 then
        let axis := axisNames.getD s.jog.selectedAxis ""
        let distance := if dt then s.jog.increment else -s.jog.increment
        (⟨clk, t⟩, [Ev.cmd (Cmd.jog axis distance 1000)])
      else (⟨clk, e.lastJogTime⟩, [])
    else (⟨clk, e.lastJogTime⟩, [])
  else (e, [])

/-- The rotation-encoder statics of loop_pendant: lastEncoderCLK,
lastRotationTime and lastScreen. -/
structure EncRotSt where
  lastEncoderCLK : Bool
  lastRotationTime : Nat
  lastScreen : Screen
deriving DecidableEq, Repr

/-- The display-rotation encoder block of loop_pendant: the CLK latch is
re-seeded when the FluidNC screen is entered; on that screen a CLK
HIGH-to-LOW transition that passes the 300 ms window toggles the rotation
between 2 (normal) and 0 (upside down) regardless of direction, applies
it to the display, persists it under the "rotation" key, and repaints. -/
def encoderRotationStep (heap t : Nat) (clk _dt : Bool) (e : EncRotSt)
    (s : PendantState) : EncRotSt × PendantState × List Ev :=
  let e :=
    if s.current = Screen.fluidNC ∧ e.lastScreen ≠ Screen.fluidNC then
      { e with lastEncoderCLK := clk, lastScreen := Screen.fluidNC }
    else if s.current ≠ Screen.fluidNC then { e with lastScreen := s.current }
    else e
  if s.current = Screen.fluidNC then
    if clk ≠ e.lastEncoderCLK ∧ clk = false then
      if t - e.lastRotationTime > 300 then
        let m :=
          if s.machine.rotation = 2 then
            { s.machine with rotation := 0, displayRotation := "Upside Down" }
          else
            { s.machine with rotation := 2, displayRotation := "Normal" }
        let s := { s with machine := m, prefs := putInt s.prefs "rotation" m.rotation }
        let r := drawCurrentPendantScreen heap s
        ({ e with lastEncoderCLK := clk, lastRotationTime := t },
         r.1, Ev.setRotation m.rotation :: r.2)
      else ({ e with lastEncoderCLK := clk }, s, [])
    else ({ e with lastEncoderCLK := clk }, s, [])
  else (e, s, [])

/-- The rotation-restore part of setup_pendant: read the persisted
"rotation" integer (default 2), store it in the machine record, derive
the displayRotation label, and apply it to the display. -/
def setupPendantRotation (p : Prefs) (m : MachineState) : MachineState :=
  let savedRotation := getInt p "rotation" 2
  let m := { m with rotation := savedRotation }
  if m.rotation = 2 then { m with displayRotation := "Normal" }
  else { m with displayRotation := "Upside Down" }

/-- The commands among an effect trace. -/
def cmdsOf (es : List Ev) : List Cmd :=
  es.filterMap fun e =>
    match e with
    | Ev.cmd c => some c
    | _ => none

/-- Whether an effect trace contains a relative-jog command. -/
def hasJogCmd (es : List Ev) : Bool :=
  es.any fun e =>
    match e with
    | Ev.cmd (Cmd.jog _ _ _) => true
    | _ => false

theorem updateJogAxisDisplay_guard (s : PendantState) :
    (hasPush (updateJogAxisDisplay s) = true ↔
      s.sprites.spritesInit = true ∧ s.current = Screen.jogHoming) ∧
    (updateJogAxisDisplay s = [] ∨
      (s.sprites.spritesInit = true ∧ s.current = Screen.jogHoming)) := by
  by_cases h : s.sprites.spritesInit = true ∧ s.current = Screen.jogHoming <;>
    simp [updateJogAxisDisplay, h, hasPush]

theorem updateWorkMachinePos_guard (s : PendantState) :
    (hasPush (updateWorkMachinePos s) = true ↔
      s.sprites.spritesInit = true ∧ s.current = Screen.probingWork) ∧
    (updateWorkMachinePos s = [] ∨
      (s.sprites.spritesInit = true ∧ s.current = Screen.probingWork)) := by
  by_cases h : s.sprites.spritesInit = true ∧ s.current = Screen.probingWork <;>
    simp [updateWorkMachinePos, h, hasPush]

theorem updateWorkAreaPos_guard (s : PendantState) :
    (hasPush (updateWorkAreaPos s) = true ↔
      s.sprites.spritesInit = true ∧ s.current = Screen.probingWork) ∧
    (updateWorkAreaPos s = [] ∨
      (s.sprites.spritesInit = true ∧ s.current = Screen.probingWork)) := by
  by_cases h : s.sprites.spritesInit = true ∧ s.current = Screen.probingWork <;>
    simp [updateWorkAreaPos, h, hasPush]

theorem updateMainMenuDisplay_guard (s : PendantState) :
    (hasPush (updateMainMenuDisplay s) = true ↔
      s.sprites.spritesInit = true ∧ s.current = Screen.mainMenu) ∧
    (updateMainMenuDisplay s = [] ∨
      (s.sprites.spritesInit = true ∧ s.current = Screen.mainMenu)) := by
  by_cases h : s.sprites.spritesInit = true ∧ s.current = Screen.mainMenu <;>
    simp [updateMainMenuDisplay, h, hasPush]

theorem updateFeedsSpeedsTopDisplay_guard (s : PendantState) :
    (hasPush (updateFeedsSpeedsTopDisplay s) = true ↔
      s.sprites.spritesInit = true ∧ s.current = Screen.feedsSpeeds) ∧
    (updateFeedsSpeedsTopDisplay s = [] ∨
      (s.sprites.spritesInit = true ∧ s.current = Screen.feedsSpeeds)) := by
  by_cases h : s.sprites.spritesInit = true ∧ s.current = Screen.feedsSpeeds <;>
    simp [updateFeedsSpeedsTopDisplay, h, hasPush]

theorem updateFeedOverrideDisplay_guard (s : PendantState) :
    (hasPush (updateFeedOverrideDisplay s) = true ↔
      s.sprites.spritesInit = true ∧ s.current = Screen.feedsSpeeds) ∧
    (updateFeedOverrideDisplay s = [] ∨
      (s.sprites.spritesInit = true ∧ s.current = Screen.feedsSpeeds)) := by
  by_cases h : s.sprites.spritesInit = true ∧ s.current = Screen.feedsSpeeds <;>
    simp [updateFeedOverrideDisplay, h, hasPush]

theorem updateSpindleOverrideDisplay_guard (s : PendantState) :
    (hasPush (updateSpindleOverrideDisplay s) = true ↔
      s.sprites.spritesInit = true ∧ s.current = Screen.feedsSpeeds) ∧
    (updateSpindleOverrideDisplay s = [] ∨
      (s.sprites.spritesInit = true ∧ s.current = Screen.feedsSpeeds)) := by
  by_cases h : s.sprites.spritesInit = true ∧ s.current = Screen.feedsSpeeds <;>
    simp [updateSpindleOverrideDisplay, h, hasPush]

theorem updateSpindleRPMDisplay_guard (s : PendantState) :
    (hasPush (updateSpindleRPMDisplay s) = true ↔
      s.sprites.spritesInit = true ∧ s.current = Screen.spindleControl) ∧
    (updateSpindleRPMDisplay s = [] ∨
      (s.sprites.spritesInit = true ∧ s.current = Screen.spindleControl)) := by
  by_cases h : s.sprites.spritesInit = true ∧ s.current = Screen.spindleControl <;>
    simp [updateSpindleRPMDisplay, h, hasPush]

theorem updateProbePositionDisplay_guard (s : PendantState) :
    (hasPush (updateProbePositionDisplay s) = true ↔
      s.sprites.spritesInit = true ∧ s.current = Screen.probing) ∧
    (updateProbePositionDisplay s = [] ∨
      (s.sprites.spritesInit = true ∧ s.current = Screen.probing)) := by
  by_cases h : s.sprites.spritesInit = true ∧ s.current = Screen.probing <;>
    simp [updateProbePositionDisplay, h, hasPush]

theorem updateProbeSettingsDisplay_guard (s : PendantState) :
    (hasPush (updateProbeSettingsDisplay s) = true ↔
      s.sprites.spritesInit = true ∧ s.current = Screen.probing) ∧
    (updateProbeSettingsDisplay s = [] ∨
      (s.sprites.spritesInit = true ∧ s.current = Screen.probing)) := by
  by_cases h : s.sprites.spritesInit = true ∧ s.current = Screen.probing <;>
    simp [updateProbeSettingsDisplay, h, hasPush]

theorem updateStatusCurrentFile_guard (s : PendantState) :
    (hasPush (updateStatusCurrentFile s) = true ↔
      s.sprites.spritesInit = true ∧ s.current = Screen.status) ∧
    (updateStatusCurrentFile s = [] ∨
      (s.sprites.spritesInit = true ∧ s.current = Screen.status)) := by
  by_cases h : s.sprites.spritesInit = true ∧ s.current = Screen.status <;>
    simp [updateStatusCurrentFile, h, hasPush]

theorem updateStatusMachineStatus_guard (s : PendantState) :
    (hasPush (updateStatusMachineStatus s) = true ↔
      s.sprites.spritesInit = true ∧ s.current = Screen.status) ∧
    (updateStatusMachineStatus s = [] ∨
      (s.sprites.spritesInit = true ∧ s.current = Screen.status)) := by
  by_cases h : s.sprites.spritesInit = true ∧ s.current = Screen.status <;>
    simp [updateStatusMachineStatus, h, hasPush]

theorem updateStatusAxisPositions_guard (s : PendantState) :
    (hasPush (updateStatusAxisPositions s) = true ↔
      s.sprites.spritesInit = true ∧ s.current = Screen.status) ∧
    (updateStatusAxisPositions s = [] ∨
      (s.sprites.spritesInit = true ∧ s.current = Screen.status)) := by
  by_cases h : s.sprites.spritesInit = true ∧ s.current = Screen.status <;>
    simp [updateStatusAxisPositions, h, hasPush]

theorem updateStatusFeedSpindle_guard (s : PendantState) :
    (hasPush (updateStatusFeedSpindle s) = true ↔
      s.sprites.spritesInit = true ∧ s.current = Screen.status) ∧
    (updateStatusFeedSpindle s = [] ∨
      (s.sprites.spritesInit = true ∧ s.current = Screen.status)) := by
  by_cases h : s.sprites.spritesInit = true ∧ s.current = Screen.status <;>
    simp [updateStatusFeedSpindle, h, hasPush]

/-- Claim C1: every sprite-based partial-update function
(updateJogAxisDisplay, updateWorkMachinePos, updateWorkAreaPos,
updateMainMenuDisplay, updateFeedsSpeedsTopDisplay,
updateFeedOverrideDisplay, updateSpindleOverrideDisplay,
updateSpindleRPMDisplay, updateProbePositionDisplay,
updateProbeSettingsDisplay, updateStatusCurrentFile,
updateStatusMachineStatus, updateStatusAxisPositions,
updateStatusFeedSpindle), in every state, blits its sprite to the
display exactly when sprites are initialized and the current screen is
the screen the function belongs to; when the current screen differs or
sprites are not initialized, the call is silently ignored and performs
no drawing at all, so a late periodic update after a screen transition
never draws onto the newly active screen. -/
theorem claim_C1 (s : PendantState) :
    ((hasPush (updateJogAxisDisplay s) = true ↔
        s.sprites.spritesInit = true ∧ s.current = Screen.jogHoming) ∧
      (updateJogAxisDisplay s = [] ∨
        (s.sprites.spritesInit = true ∧ s.current = Screen.jogHoming))) ∧
    ((hasPush (updateWorkMachinePos s) = true ↔
        s.sprites.spritesInit = true ∧ s.current = Screen.probingWork) ∧
      (updateWorkMachinePos s = [] ∨
        (s.sprites.spritesInit = true ∧ s.current = Screen.probingWork))) ∧
    ((hasPush (updateWorkAreaPos s) = true ↔
        s.sprites.spritesInit = true ∧ s.current = Screen.probingWork) ∧
      (updateWorkAreaPos s = [] ∨
        (s.sprites.spritesInit = true ∧ s.current = Screen.probingWork))) ∧
    ((hasPush (updateMainMenuDisplay s) = true ↔
        s.sprites.spritesInit = true ∧ s.current = Screen.mainMenu) ∧
      (updateMainMenuDisplay s = [] ∨
        (s.sprites.spritesInit = true ∧ s.current = Screen.mainMenu))) ∧
    ((hasPush (updateFeedsSpeedsTopDisplay s) = true ↔
        s.sprites.spritesInit = true ∧ s.current = Screen.feedsSpeeds) ∧
      (updateFeedsSpeedsTopDisplay s = [] ∨
        (s.sprites.spritesInit = true ∧ s.current = Screen.feedsSpeeds))) ∧
    ((hasPush (updateFeedOverrideDisplay s) = true ↔
        s.sprites.spritesInit = true ∧ s.current = Screen.feedsSpeeds) ∧
      (updateFeedOverrideDisplay s = [] ∨
        (s.sprites.spritesInit = true ∧ s.current = Screen.feedsSpeeds))) ∧
    ((hasPush (updateSpindleOverrideDisplay s) = true ↔
        s.sprites.spritesInit = true ∧ s.current = Screen.feedsSpeeds) ∧
      (updateSpindleOverrideDisplay s = [] ∨
        (s.sprites.spritesInit = true ∧ s.current = Screen.feedsSpeeds))) ∧
    ((hasPush (updateSpindleRPMDisplay s) = true ↔
        s.sprites.spritesInit = true ∧ s.current = Screen.spindleControl) ∧
      (updateSpindleRPMDisplay s = [] ∨
        (s.sprites.spritesInit = true ∧ s.current = Screen.spindleControl))) ∧
    ((hasPush (updateProbePositionDisplay s) = true ↔
        s.sprites.spritesInit = true ∧ s.current = Screen.probing) ∧
      (updateProbePositionDisplay s = [] ∨
        (s.sprites.spritesInit = true ∧ s.current = Screen.probing))) ∧
    ((hasPush (updateProbeSettingsDisplay s) = true ↔
        s.sprites.spritesInit = true ∧ s.current = Screen.probing) ∧
      (updateProbeSettingsDisplay s = [] ∨
        (s.sprites.spritesInit = true ∧ s.current = Screen.probing))) ∧
    ((hasPush (updateStatusCurrentFile s) = true ↔
        s.sprites.spritesInit = true ∧ s.current = Screen.status) ∧
      (updateStatusCurrentFile s = [] ∨
        (s.sprites.spritesInit = true ∧ s.current = Screen.status))) ∧
    ((hasPush (updateStatusMachineStatus s) = true ↔
        s.sprites.spritesInit = true ∧ s.current = Screen.status) ∧
      (updateStatusMachineStatus s = [] ∨
        (s.sprites.spritesInit = true ∧ s.current = Screen.status))) ∧
    ((hasPush (updateStatusAxisPositions s) = true ↔
        s.sprites.spritesInit = true ∧ s.current = Screen.status) ∧
      (updateStatusAxisPositions s = [] ∨
        (s.sprites.spritesInit = true ∧ s.current = Screen.status))) ∧
    ((hasPush (updateStatusFeedSpindle s) = true ↔
        s.sprites.spritesInit = true ∧ s.current = Screen.status) ∧
      (updateStatusFeedSpindle s = [] ∨
        (s.sprites.spritesInit = true ∧ s.current = Screen.status))) :=
  ⟨updateJogAxisDisplay_guard s, updateWorkMachinePos_guard s, updateWorkAreaPos_guard s, updateMainMenuDisplay_guard s, updateFeedsSpeedsTopDisplay_guard s, updateFeedOverrideDisplay_guard s, updateSpindleOverrideDisplay_guard s, updateSpindleRPMDisplay_guard s, updateProbePositionDisplay_guard s, updateProbeSettingsDisplay_guard s, updateStatusCurrentFile_guard s, updateStatusMachineStatus_guard s, updateStatusAxisPositions_guard s, updateStatusFeedSpindle_guard s⟩


theorem btnStep_no_fire (t : Nat) (r : Bool) (s : BtnSt)
    (h : stepFires t r s = false) :
    btnStep t r s = (⟨debounceLdt t r s, r, s.buttonState, s.buttonHandled⟩, false) := by
  rw [stepFires, decide_eq_false_iff_not] at h
  rw [btnStep, if_neg h]

theorem btnStep_fire (t : Nat) (r : Bool) (s : BtnSt)
    (h : stepFires t r s = true) :
    btnStep t r s = (⟨debounceLdt t r s, r, r, btnHandled r s⟩, btnPress r s) := by
  rw [stepFires, decide_eq_true_eq] at h
  rw [btnStep, if_pos h]

theorem btnRun_append (a b : List (Nat × Bool)) (s : BtnSt) :
    btnRun s (a ++ b) =
      ((btnRun (btnRun s a).1 b).1,
       (btnRun s a).2 + (btnRun (btnRun s a).1 b).2) := by
  induction a generalizing s with
  | nil => simp [btnRun]
  | cons hd tl ih =>
    obtain ⟨t, r⟩ := hd
    simp [btnRun, ih, Nat.add_assoc]

theorem btnRun_bouncy (tr : List (Nat × Bool)) (s : BtnSt)
    (h : allBouncy s tr = true) :
    (btnRun s tr).2 = 0 ∧
    (btnRun s tr).1.buttonState = s.buttonState ∧
    (btnRun s tr).1.buttonHandled = s.buttonHandled := by
  induction tr generalizing s with
  | nil => simp [btnRun]
  | cons hd tl ih =>
    obtain ⟨t, r⟩ := hd
    rw [allBouncy, Bool.and_eq_true, Bool.not_eq_true'] at h
    obtain ⟨h1, h2⟩ := h
    rw [btnStep_no_fire t r s h1] at h2
    have ih' := ih _ h2
    simp only [btnRun, btnStep_no_fire t r s h1]
    simpa using ih'

theorem btnRun_low_blocked (tr : List (Nat × Bool)) (s : BtnSt)
    (hlow : allLow tr = true) (hbs : s.buttonState = false) :
    (btnRun s tr).2 = 0 ∧
    (btnRun s tr).1.buttonState = false ∧
    (btnRun s tr).1.buttonHandled = s.buttonHandled := by
  induction tr generalizing s with
  | nil => simp [btnRun, hbs]
  | cons hd tl ih =>
    obtain ⟨t, r⟩ := hd
    rw [allLow, List.all_cons, Bool.and_eq_true] at hlow
    obtain ⟨hr, hlow⟩ := hlow
    simp only [decide_eq_true_eq] at hr
    subst hr
    by_cases hf : stepFires t false s = true
    · have hstep := btnStep_fire t false s hf
      have hpress : btnPress false s = false := by
        simp [btnPress, hbs]
      have hhand : btnHandled false s = s.buttonHandled := by
        simp [btnHandled, hpress]
      rw [hpress, hhand] at hstep
      have ih' := ih ⟨debounceLdt t false s, false, false, s.buttonHandled⟩ hlow rfl
      simp only [btnRun, hstep]
      simpa using ih'
    · rw [Bool.not_eq_true] at hf
      have hstep := btnStep_no_fire t false s hf
      have ih' := ih ⟨debounceLdt t false s, false, s.buttonState, s.buttonHandled⟩ hlow hbs
      simp only [btnRun, hstep]
      simpa using ih'

theorem btnRun_low_ready (tr : List (Nat × Bool)) (s : BtnSt)
    (hlow : allLow tr = true) (hbs : s.buttonState = true)
    (hbh : s.buttonHandled = false) :
    ((btnRun s tr).2 = if someFires s tr then 1 else 0) ∧
    ((btnRun s tr).1.buttonState = if someFires s tr then false else true) ∧
    ((btnRun s tr).1.buttonHandled = if someFires s tr then true else false) := by
  induction tr generalizing s with
  | nil => simp [btnRun, someFires, hbs, hbh]
  | cons hd tl ih =>
    obtain ⟨t, r⟩ := hd
    rw [allLow, List.all_cons, Bool.and_eq_true] at hlow
    obtain ⟨hr, hlow⟩ := hlow
    simp only [decide_eq_true_eq] at hr
    subst hr
    by_cases hf : stepFires t false s = true
    · have hstep := btnStep_fire t false s hf
      have hpress : btnPress false s = true := by
        simp [btnPress, hbs, hbh]
      have hhand : btnHandled false s = true := by
        simp [btnHandled, hpress]
      rw [hpress, hhand] at hstep
      have hrest := btnRun_low_blocked tl
        ⟨debounceLdt t false s, false, false, true⟩ hlow rfl
      have hsf : someFires s ((t, false) :: tl) = true := by
        rw [someFires, hf, Bool.true_or]
      simp only [btnRun, hstep, hsf]
      simpa using hrest
    · rw [Bool.not_eq_true] at hf
      have hstep := btnStep_no_fire t false s hf
      have ih' := ih ⟨debounceLdt t false s, false, s.buttonState, s.buttonHandled⟩
        hlow hbs hbh
      have hsf : someFires s ((t, false) :: tl) =
          someFires ⟨debounceLdt t false s, false, s.buttonState, s.buttonHandled⟩ tl := by
        rw [someFires, hf, Bool.false_or, hstep]
      simp only [btnRun, hstep, hsf]
      simpa using ih'

theorem btnRun_high (tr : List (Nat × Bool)) (s : BtnSt)
    (hhigh : allHigh tr = true) :
    ((btnRun s tr).2 = 0) ∧
    ((btnRun s tr).1.buttonState = if someFires s tr then true else s.buttonState) ∧
    ((btnRun s tr).1.buttonHandled = if someFires s tr then false else s.buttonHandled) := by
  induction tr generalizing s with
  | nil => simp [btnRun, someFires]
  | cons hd tl ih =>
    obtain ⟨t, r⟩ := hd
    rw [allHigh, List.all_cons, Bool.and_eq_true] at hhigh
    obtain ⟨hr, hhigh⟩ := hhigh
    simp only [decide_eq_true_eq] at hr
    subst hr
    by_cases hf : stepFires t true s = true
    · have hstep := btnStep_fire t true s hf
      have hpress : btnPress true s = false := by
        simp [btnPress]
      have hhand : btnHandled true s = false := by
        simp [btnHandled, hpress]
      rw [hpress, hhand] at hstep
      have ih' := ih ⟨debounceLdt t true s, true, true, false⟩ hhigh
      have hsf : someFires s ((t, true) :: tl) = true := by
        rw [someFires, hf, Bool.true_or]
      simp only [btnRun, hstep, hsf]
      have hbs2 := ih'.2.1
      have hbh2 := ih'.2.2
      refine ⟨by simpa using ih'.1, by simp [hbs2], by simp [hbh2]⟩
    · rw [Bool.not_eq_true] at hf
      have hstep := btnStep_no_fire t true s hf
      have ih' := ih ⟨debounceLdt t true s, true, s.buttonState, s.buttonHandled⟩ hhigh
      have hsf : someFires s ((t, true) :: tl) =
          someFires ⟨debounceLdt t true s, true, s.buttonState, s.buttonHandled⟩ tl := by
        rw [someFires, hf, Bool.false_or, hstep]
      simp only [btnRun, hstep, hsf]
      simpa using ih'

/-- Claim C2: starting from a tracker in the stable released state
(debounced HIGH, press not yet delivered), a raw trace consisting of a
bouncy phase (arbitrarily many bounces, each sample inside the 50 ms
debounce window), then all-LOW samples among which the stability check
eventually passes, yields exactly one logical press; a following all-HIGH
stable release keeps the count at one while resetting the delivered
flag, so a second stable depression yields exactly one more press. -/
theorem claim_C2 (s0 : BtnSt) (bounce press1 release press2 : List (Nat × Bool))
    (hready : s0.buttonState = true) (hh : s0.buttonHandled = false)
    (hb : allBouncy s0 bounce = true)
    (hl1 : allLow press1 = true)
    (hf1 : someFires (btnRun s0 bounce).1 press1 = true)
    (hr : allHigh release = true)
    (hf2 : someFires (btnRun s0 (bounce ++ press1)).1 release = true)
    (hl2 : allLow press2 = true)
    (hf3 : someFires (btnRun s0 (bounce ++ press1 ++ release)).1 press2 = true) :
    (btnRun s0 (bounce ++ press1)).2 = 1 ∧
    (btnRun s0 (bounce ++ press1 ++ release)).2 = 1 ∧
    (btnRun s0 (bounce ++ press1 ++ release ++ press2)).2 = 2 := by
  obtain ⟨hbc, hbs, hbh⟩ := btnRun_bouncy bounce s0 hb
  set sB := (btnRun s0 bounce).1 with hsB
  rw [hready] at hbs
  rw [hh] at hbh
  obtain ⟨hpc, hps, hph⟩ := btnRun_low_ready press1 sB hl1 hbs hbh
  rw [hf1] at hpc hps hph
  simp only [eq_self_iff_true, if_true] at hpc hps hph
  have e1 : (btnRun s0 (bounce ++ press1)).2 = 1 := by
    rw [btnRun_append]
    simp [← hsB, hbc, hpc]
  have e1s : (btnRun s0 (bounce ++ press1)).1 = (btnRun sB press1).1 := by
    rw [btnRun_append]
  obtain ⟨hrc, hrs, hrh⟩ := btnRun_high release (btnRun sB press1).1 hr
  rw [e1s] at hf2
  rw [hf2] at hrs hrh
  simp only [eq_self_iff_true, if_true] at hrs hrh
  have e2 : (btnRun s0 (bounce ++ press1 ++ release)).2 = 1 := by
    rw [btnRun_append, e1, e1s, hrc]
  have e2s : (btnRun s0 (bounce ++ press1 ++ release)).1 =
      (btnRun (btnRun sB press1).1 release).1 := by
    rw [btnRun_append, e1s]
  obtain ⟨hqc, hqs, hqh⟩ := btnRun_low_ready press2
    (btnRun (btnRun sB press1).1 release).1 hl2 hrs hrh
  rw [e2s] at hf3
  rw [hf3] at hqc
  simp only [eq_self_iff_true, if_true] at hqc
  refine ⟨e1, e2, ?_⟩
  rw [btnRun_append]
  simp only [← List.append_assoc]
  rw [e2, e2s, hqc]

/-- Witness for claim C2 at a concrete bouncy press, stable release and
second press. -/
theorem claim_C2_witness :
    (btnRun ⟨0, true, true, false⟩
      ([(10, false), (20, true), (30, false)] ++ [(40, false), (91, false)])).2 = 1 ∧
    (btnRun ⟨0, true, true, false⟩
      ([(10, false), (20, true), (30, false)] ++ [(40, false), (91, false)] ++
       [(100, true), (160, true)])).2 = 1 ∧
    (btnRun ⟨0, true, true, false⟩
      ([(10, false), (20, true), (30, false)] ++ [(40, false), (91, false)] ++
       [(100, true), (160, true)] ++ [(170, false), (225, false)])).2 = 2 :=
  claim_C2 ⟨0, true, true, false⟩
    [(10, false), (20, true), (30, false)]
    [(40, false), (91, false)]
    [(100, true), (160, true)]
    [(170, false), (225, false)]
    rfl rfl (by decide) (by decide) (by decide) (by decide) (by decide)
    (by decide) (by decide)

theorem drawCurrentPendantScreen_current (heap : Nat) (s : PendantState) :
    (drawCurrentPendantScreen heap s).1.current = s.current := by
  rw [drawCurrentPendantScreen]
  dsimp only
  split <;> rfl

theorem drawCurrentPendantScreen_previous (heap : Nat) (s : PendantState) :
    (drawCurrentPendantScreen heap s).1.previous = s.previous := by
  rw [drawCurrentPendantScreen]
  dsimp only
  split <;> rfl

theorem drawCurrentPendantScreen_evs (heap : Nat) (s : PendantState) :
    (drawCurrentPendantScreen heap s).2 = [Ev.fullRepaint s.current] := by
  rw [drawCurrentPendantScreen]
  dsimp only
  split <;> rfl


theorem itePrev {c : Prop} [Decidable c] {a b : PendantState × List Ev}
    {p : Screen} (ha : a.1.previous = p) (hb : b.1.previous = p) :
    (if c then a else b).1.previous = p := by
  split
  · exact ha
  · exact hb

theorem handleMainMenuTouch_previous (s : PendantState) (x y : Int) :
    (handleMainMenuTouch s x y).1.previous = s.previous := by
  rw [handleMainMenuTouch]
  iterate 8 refine itePrev rfl ?_
  rfl

theorem handleJogHomingTouch_previous (s : PendantState) (x y : Int) :
    (handleJogHomingTouch s x y).1.previous = s.previous := by
  rw [handleJogHomingTouch]
  iterate 14 refine itePrev rfl ?_
  rfl

theorem spindleDirectionCheck_previous (s : PendantState) (x y : Int) :
    (spindleDirectionCheck s x y).1.previous = s.previous := by
  rw [spindleDirectionCheck]
  split_ifs <;> rfl

theorem spindleStartStopCheck_previous (d : PendantState × List Ev) (x y : Int) :
    (spindleStartStopCheck d x y).1.previous = d.1.previous := by
  rw [spindleStartStopCheck]
  split_ifs <;> rfl

theorem handleSpindleControlTouch_previous (s : PendantState) (x y : Int) :
    (handleSpindleControlTouch s x y).1.previous = s.previous := by
  rw [handleSpindleControlTouch]
  dsimp only
  split_ifs <;>
    simp [spindlePresetHit, spindleDirectionCheck_previous,
      spindleStartStopCheck_previous]

theorem handleFeedsSpeedsTouch_previous (s : PendantState) (x y : Int) :
    (handleFeedsSpeedsTouch s x y).1.previous = s.previous := by
  rw [handleFeedsSpeedsTouch]
  iterate 11 refine itePrev rfl ?_
  rfl

theorem sdNavCheck_previous (heap : Nat) (s : PendantState) (x y : Int) :
    (sdNavCheck heap s x y).1.previous = s.previous := by
  rw [sdNavCheck]
  dsimp only
  split_ifs <;> simp [drawCurrentPendantScreen_previous]

theorem handleSDCardTouch_previous (heap : Nat) (s : PendantState) (x y : Int) :
    (handleSDCardTouch heap s x y).1.previous = s.previous := by
  rw [handleSDCardTouch]
  dsimp only [sdFileHit]
  split_ifs <;> simp [sdNavCheck_previous]

theorem workZeroCheck_previous (s : PendantState) (x y : Int) :
    (workZeroCheck s x y).1.previous = s.previous := by
  rw [workZeroCheck]
  split_ifs <;> rfl

theorem handleProbingWorkTouch_previous (s : PendantState) (x y : Int) :
    (handleProbingWorkTouch s x y).1.previous = s.previous := by
  rw [handleProbingWorkTouch]
  dsimp only
  split_ifs <;> simp [workCoordHit, workZeroCheck_previous]

theorem handleMacrosTouch_previous (s : PendantState) (x y : Int) :
    (handleMacrosTouch s x y).1.previous = s.previous := by
  rw [handleMacrosTouch]
  iterate 11 refine itePrev rfl ?_
  rfl

theorem handleProbingTouch_previous (s : PendantState) (x y : Int) :
    (handleProbingTouch s x y).1.previous = s.previous := by
  rw [handleProbingTouch]
  split_ifs <;> rfl

theorem dispatchTouch_previous (heap : Nat) (s : PendantState) (x y : Int) :
    (dispatchTouch heap s x y).1.previous = s.previous := by
  rw [dispatchTouch]
  cases hc : s.current
  case mainMenu => exact handleMainMenuTouch_previous s x y
  case jogHoming => exact handleJogHomingTouch_previous s x y
  case spindleControl => exact handleSpindleControlTouch_previous s x y
  case feedsSpeeds => exact handleFeedsSpeedsTouch_previous s x y
  case sdCard => exact handleSDCardTouch_previous heap s x y
  case probingWork => exact handleProbingWorkTouch_previous s x y
  case probing => exact handleProbingTouch_previous s x y
  case macroMenu => exact handleMacrosTouch_previous s x y
  case status => split_ifs <;> rfl
  case fluidNC => split_ifs <;> rfl

/-- Claim C3 counterexample: from the main menu, touching the Jog region
performs a transition to JogHoming, yet afterwards previousPendantScreen
is JogHoming too, not the MainMenu screen that was active before the
transition. -/
theorem claim_C3_counterexample :
    pendant0.current = Screen.mainMenu ∧
    (handlePendantTouch 100000 pendant0 10 120).1.current = Screen.jogHoming ∧
    (handlePendantTouch 100000 pendant0 10 120).1.previous ≠ Screen.mainMenu := by
  refine ⟨rfl, ?_, ?_⟩ <;> decide

/-- Claim C3 as amended: a transition performed by the touch dispatcher
first sets the current screen to the target S inside the screen handler;
the post-dispatch check then copies the new current screen into the
previous-screen variable and invokes the full-repaint routine of S.
Hence after every touch the previous-screen variable equals the current
screen (it marks the last fully repainted screen, not the screen active
before the transition). -/
theorem claim_C3_amended (heap : Nat) (s : PendantState) (x y : Int)
    (hprev : s.previous = s.current) :
    (handlePendantTouch heap s x y).1.previous =
      (handlePendantTouch heap s x y).1.current ∧
    ((handlePendantTouch heap s x y).1.current ≠ s.current →
      Ev.fullRepaint (handlePendantTouch heap s x y).1.current ∈
        (handlePendantTouch heap s x y).2) := by
  rw [handlePendantTouch]
  dsimp only
  by_cases hc : (dispatchTouch heap s x y).1.current ≠ (dispatchTouch heap s x y).1.previous
  · rw [if_pos hc]
    constructor
    · rw [drawCurrentPendantScreen_previous, drawCurrentPendantScreen_current]
    · intro _
      rw [drawCurrentPendantScreen_current, drawCurrentPendantScreen_evs]
      dsimp only
      exact List.mem_append_right _ (List.mem_singleton.mpr rfl)
  · rw [if_neg hc]
    rw [not_not] at hc
    have hp := dispatchTouch_previous heap s x y
    constructor
    · rw [hc, hp, hprev]
    · intro hne
      exact absurd (hc.trans (hp.trans hprev)) hne

/-- Witness for the amended claim C3: a concrete transition from the main
menu to the jog screen repaints the jog screen and leaves previous equal
to current. -/
theorem claim_C3_amended_witness :
    (handlePendantTouch 100000 pendant0 10 120).1.previous =
      (handlePendantTouch 100000 pendant0 10 120).1.current ∧
    ((handlePendantTouch 100000 pendant0 10 120).1.current ≠ pendant0.current →
      Ev.fullRepaint (handlePendantTouch 100000 pendant0 10 120).1.current ∈
        (handlePendantTouch 100000 pendant0 10 120).2) :=
  claim_C3_amended 100000 pendant0 10 120 rfl

/-- A Jog & Homing screen state whose sprite bind was attempted with only
40000 bytes of heap free: allocation was skipped, sprites stay
uninitialized. -/
def lowHeapJog : PendantState :=
  { pendant0 with current := Screen.jogHoming, previous := Screen.jogHoming,
                  sprites := initSpritesForScreen 40000 sprites0 Screen.jogHoming }

/-- A Jog & Homing screen state bound with ample heap: sprites allocated. -/
def cachedJog : PendantState :=
  { pendant0 with current := Screen.jogHoming, previous := Screen.jogHoming,
                  sprites := initSpritesForScreen 100000 sprites0 Screen.jogHoming }

/-- Counterexample to claim C4 as stated: after a low-heap bind of the
Jog screen, updateJogAxisDisplay draws nothing at all — it performs no
direct-to-display fallback, so the visual result is not equivalent to
the cached rendering, which paints the axis readout and blits it. -/
theorem claim_C4_counterexample :
    updateJogAxisDisplay lowHeapJog = [] ∧
    hasPush (updateJogAxisDisplay lowHeapJog) = false ∧
    updateJogAxisDisplay cachedJog ≠ [] ∧
    hasPush (updateJogAxisDisplay cachedJog) = true := by
  refine ⟨?_, ?_, ?_, ?_⟩ <;> decide

/-- Claim C4 as amended: when free-heap headroom is below the 50000-byte
threshold at bind time, initSpritesForScreen frees any existing sprites
and skips allocation entirely (sprites stay uninitialized and the owner
tag is not even updated), and every subsequent partial-update call is a
silent total no-op — it draws nothing, neither through a sprite nor
directly to the display — and never crashes or surfaces an error. -/
theorem claim_C4_amended (heap : Nat) (spr : Sprites) (scr : Screen)
    (hheap : heap < 50000) :
    ((initSpritesForScreen heap spr scr).spritesInit = false ∧
     (initSpritesForScreen heap spr scr).allocatedFor = spr.allocatedFor) ∧
    (∀ s : PendantState, s.sprites.spritesInit = false →
      updateJogAxisDisplay s = [] ∧ updateWorkMachinePos s = [] ∧
      updateWorkAreaPos s = [] ∧ updateMainMenuDisplay s = [] ∧
      updateFeedsSpeedsTopDisplay s = [] ∧ updateFeedOverrideDisplay s = [] ∧
      updateSpindleOverrideDisplay s = [] ∧ updateSpindleRPMDisplay s = [] ∧
      updateProbePositionDisplay s = [] ∧ updateProbeSettingsDisplay s = [] ∧
      updateStatusCurrentFile s = [] ∧ updateStatusMachineStatus s = [] ∧
      updateStatusAxisPositions s = [] ∧ updateStatusFeedSpindle s = []) := by
  constructor
  · by_cases hs : spr.spritesInit <;> simp [initSpritesForScreen, hheap, hs]
  · intro s hs
    refine ⟨?_, ?_, ?_, ?_, ?_, ?_, ?_, ?_, ?_, ?_, ?_, ?_, ?_, ?_⟩ <;>
      simp [updateJogAxisDisplay, updateWorkMachinePos, updateWorkAreaPos,
        updateMainMenuDisplay, updateFeedsSpeedsTopDisplay,
        updateFeedOverrideDisplay, updateSpindleOverrideDisplay,
        updateSpindleRPMDisplay, updateProbePositionDisplay,
        updateProbeSettingsDisplay, updateStatusCurrentFile,
        updateStatusMachineStatus, updateStatusAxisPositions,
        updateStatusFeedSpindle, hs]

/-- Witness for the amended claim C4 at heap 40000 and the Jog screen. -/
theorem claim_C4_amended_witness :
    ((initSpritesForScreen 40000 sprites0 Screen.jogHoming).spritesInit = false ∧
     (initSpritesForScreen 40000 sprites0 Screen.jogHoming).allocatedFor =
       sprites0.allocatedFor) ∧
    (updateJogAxisDisplay lowHeapJog = [] ∧ updateWorkMachinePos lowHeapJog = [] ∧
     updateWorkAreaPos lowHeapJog = [] ∧ updateMainMenuDisplay lowHeapJog = [] ∧
     updateFeedsSpeedsTopDisplay lowHeapJog = [] ∧
     updateFeedOverrideDisplay lowHeapJog = [] ∧
     updateSpindleOverrideDisplay lowHeapJog = [] ∧
     updateSpindleRPMDisplay lowHeapJog = [] ∧
     updateProbePositionDisplay lowHeapJog = [] ∧
     updateProbeSettingsDisplay lowHeapJog = [] ∧
     updateStatusCurrentFile lowHeapJog = [] ∧
     updateStatusMachineStatus lowHeapJog = [] ∧
     updateStatusAxisPositions lowHeapJog = [] ∧
     updateStatusFeedSpindle lowHeapJog = []) :=
  ⟨(claim_C4_amended 40000 sprites0 Screen.jogHoming (by decide)).1,
   (claim_C4_amended 40000 sprites0 Screen.jogHoming (by decide)).2
     lowHeapJog (by decide)⟩

/-- Claim C5: on the jogging screen, touching increment index i sets the
jog distance to the i-th entry of the 0.1/1/10/100 table; an accepted
encoder tick (CLK high-to-low, outside the 50 ms window) with DT HIGH
while axis X and increment 1 are selected emits the relative jog +1.0 on
X (DT LOW emits -1.0); and when any other screen is current the
jog-encoder block does nothing while the rotation-encoder block never
emits a jog command. -/
theorem claim_C5 :
    (∀ (s : PendantState) (x y : Int) (i : Nat), i < 4 →
      inB x y (5 + 56 * (i : Int)) 231 52 38 →
      (handleJogHomingTouch s x y).1.jog.increment = jogIncrements.getD i 0 ∧
      (handleJogHomingTouch s x y).1.jog.selectedIncrement = i) ∧
    (∀ (t : Nat) (clk dt : Bool) (e : EncJogSt) (s : PendantState),
      s.current = Screen.jogHoming → s.jog.selectedAxis = 0 →
      s.jog.selectedIncrement = 1 → s.jog.increment = 1 →
      e.lastJogEncoderCLK = true → clk = false → t - e.lastJogTime > 50 →
      (encoderJogStep t clk dt e s).2 =
        [Ev.cmd (Cmd.jog "X" (if dt then 1 else -1) 1000)]) ∧
    (∀ (t : Nat) (clk dt : Bool) (e : EncJogSt) (s : PendantState),
      s.current ≠ Screen.jogHoming →
      encoderJogStep t clk dt e s = (e, [])) ∧
    (∀ (heap t : Nat) (clk dt : Bool) (e : EncRotSt) (s : PendantState),
      hasJogCmd (encoderRotationStep heap t clk dt e s).2.2 = false) := by
  refine ⟨?_, ?_, ?_, ?_⟩
  · intro s x y i hi hin
    obtain ⟨hx1, hx2, hy1, hy2⟩ := hin
    interval_cases i
    · rw [handleJogHomingTouch,
      if_neg (show ¬ inB x y 5 115 52 38 by simp only [inB]; omega),
      if_neg (show ¬ inB x y 61 115 52 38 by simp only [inB]; omega),
      if_neg (show ¬ inB x y 117 115 52 38 by simp only [inB]; omega),
      if_neg (show ¬ inB x y 173 115 52 38 by simp only [inB]; omega),
      if_neg (show ¬ inB x y 5 173 52 38 by simp only [inB]; omega),
      if_neg (show ¬ inB x y 61 173 52 38 by simp only [inB]; omega),
      if_neg (show ¬ inB x y 117 173 52 38 by simp only [inB]; omega),
      if_neg (show ¬ inB x y 173 173 52 38 by simp only [inB]; omega),
      if_pos (show inB x y 5 231 52 38 by simp only [inB]; omega)]
      exact ⟨rfl, rfl⟩
    · rw [handleJogHomingTouch,
      if_neg (show ¬ inB x y 5 115 52 38 by simp only [inB]; omega),
      if_neg (show ¬ inB x y 61 115 52 38 by simp only [inB]; omega),
      if_neg (show ¬ inB x y 117 115 52 38 by simp only [inB]; omega),
      if_neg (show ¬ inB x y 173 115 52 38 by simp only [inB]; omega),
      if_neg (show ¬ inB x y 5 173 52 38 by simp only [inB]; omega),
      if_neg (show ¬ inB x y 61 173 52 38 by simp only [inB]; omega),
      if_neg (show ¬ inB x y 117 173 52 38 by simp only [inB]; omega),
      if_neg (show ¬ inB x y 173 173 52 38 by simp only [inB]; omega),
      if_neg (show ¬ inB x y 5 231 52 38 by simp only [inB]; omega),
      if_pos (show inB x y 61 231 52 38 by simp only [inB]; omega)]
      exact ⟨rfl, rfl⟩
    · rw [handleJogHomingTouch,
      if_neg (show ¬ inB x y 5 115 52 38 by simp only [inB]; omega),
      if_neg (show ¬ inB x y 61 115 52 38 by simp only [inB]; omega),
      if_neg (show ¬ inB x y 117 115 52 38 by simp only [inB]; omega),
      if_neg (show ¬ inB x y 173 115 52 38 by simp only [inB]; omega),
      if_neg (show ¬ inB x y 5 173 52 38 by simp only [inB]; omega),
      if_neg (show ¬ inB x y 61 173 52 38 by simp only [inB]; omega),
      if_neg (show ¬ inB x y 117 173 52 38 by simp only [inB]; omega),
      if_neg (show ¬ inB x y 173 173 52 38 by simp only [inB]; omega),
      if_neg (show ¬ inB x y 5 231 52 38 by simp only [inB]; omega),
      if_neg (show ¬ inB x y 61 231 52 38 by simp only [inB]; omega),
      if_pos (show inB x y 117 231 52 38 by simp only [inB]; omega)]
      exact ⟨rfl, rfl⟩
    · rw [handleJogHomingTouch,
      if_neg (show ¬ inB x y 5 115 52 38 by simp only [inB]; omega),
      if_neg (show ¬ inB x y 61 115 52 38 by simp only [inB]; omega),
      if_neg (show ¬ inB x y 117 115 52 38 by simp only [inB]; omega),
      if_neg (show ¬ inB x y 173 115 52 38 by simp only [inB]; omega),
      if_neg (show ¬ inB x y 5 173 52 38 by simp only [inB]; omega),
      if_neg (show ¬ inB x y 61 173 52 38 by simp only [inB]; omega),
      if_neg (show ¬ inB x y 117 173 52 38 by simp only [inB]; omega),
      if_neg (show ¬ inB x y 173 173 52 38 by simp only [inB]; omega),
      if_neg (show ¬ inB x y 5 231 52 38 by simp only [inB]; omega),
      if_neg (show ¬ inB x y 61 231 52 38 by simp only [inB]; omega),
      if_neg (show ¬ inB x y 117 231 52 38 by simp only [inB]; omega),
      if_pos (show inB x y 173 231 52 38 by simp only [inB]; omega)]
      exact ⟨rfl, rfl⟩
  · intro t clk dt e s hscr hax hseli hinc hclk hc ht
    subst hc
    cases dt <;>
      simp [encoderJogStep, hscr, hax, hinc, hclk, ht, axisNames]
  · intro t clk dt e s hscr
    rw [encoderJogStep, if_neg hscr]
  · intro heap t clk dt e s
    rw [encoderRotationStep]
    dsimp only
    split_ifs <;> simp [hasJogCmd, drawCurrentPendantScreen_evs]

/-- A state sitting on the Jog & Homing screen with the startup
selections (axis X, increment 1). -/
def jogScreenState : PendantState :=
  { pendant0 with current := Screen.jogHoming, previous := Screen.jogHoming }

/-- Witness for claim C5: concrete increment touch, forward and reverse
ticks, and a tick on another screen. -/
theorem claim_C5_witness :
    ((handleJogHomingTouch pendant0 70 240).1.jog.increment =
       jogIncrements.getD 1 0 ∧
     (handleJogHomingTouch pendant0 70 240).1.jog.selectedIncrement = 1) ∧
    ((encoderJogStep 100 false true ⟨true, 0⟩ jogScreenState).2 =
       [Ev.cmd (Cmd.jog "X" (if true then 1 else -1) 1000)]) ∧
    ((encoderJogStep 100 false false ⟨true, 0⟩ jogScreenState).2 =
       [Ev.cmd (Cmd.jog "X" (if false then 1 else -1) 1000)]) ∧
    (encoderJogStep 100 false true ⟨true, 0⟩ pendant0 = (⟨true, 0⟩, [])) ∧
    (hasJogCmd (encoderRotationStep 100000 400 false true
       ⟨true, 0, Screen.fluidNC⟩ pendant0).2.2 = false) :=
  ⟨claim_C5.1 pendant0 70 240 1 (by decide) (by decide),
   claim_C5.2.1 100 false true ⟨true, 0⟩ jogScreenState rfl rfl rfl rfl rfl rfl
     (by decide),
   claim_C5.2.1 100 false false ⟨true, 0⟩ jogScreenState rfl rfl rfl rfl rfl rfl
     (by decide),
   claim_C5.2.2.1 100 false true ⟨true, 0⟩ pendant0 (by decide),
   claim_C5.2.2.2 100000 400 false true ⟨true, 0, Screen.fluidNC⟩ pendant0⟩

theorem btnStep_high_no_press (t : Nat) (b : BtnSt) :
    (btnStep t true b).2 = false := by
  rw [btnStep]
  split_ifs <;> simp [btnPress]

theorem drawCurrentPendantScreen_machine (heap : Nat) (s : PendantState) :
    (drawCurrentPendantScreen heap s).1.machine = s.machine := by
  rw [drawCurrentPendantScreen]
  dsimp only
  split <;> rfl

/-- Claim C6: when the debounced press of the yellow (context-sensitive)
button fires while the red and green lines read HIGH, exactly one
command is emitted during the pass: $X when the machine status reads
ALARM at press time (and the status becomes IDLE), the feed-hold "!"
otherwise (and the status becomes HOLD).  The branch is taken on the
status at the moment the press fires, whatever it is. -/
theorem claim_C6 (heap t : Nat) (r1 : Bool) (b0 b1 b2 : BtnSt)
    (s : PendantState) (hp : (btnStep t r1 b1).2 = true) :
    cmdsOf (handlePendantPhysicalButtons heap t true r1 true b0 b1 b2 s).2.2 =
      [if s.machine.status = "ALARM" then Cmd.clearAlarm else Cmd.feedHold] ∧
    (handlePendantPhysicalButtons heap t true r1 true b0 b1 b2 s).2.1.machine.status =
      (if s.machine.status = "ALARM" then "IDLE" else "HOLD") := by
  by_cases hst : s.machine.status = "ALARM" <;>
    simp [handlePendantPhysicalButtons, btnStep_high_no_press, hp, buttonAction,
      hst, cmdsOf, drawCurrentPendantScreen_evs, drawCurrentPendantScreen_machine]

/-- Witness for claim C6: a concrete debounced yellow press in the
startup state (status IDLE) emits exactly the feed-hold command and the
status becomes HOLD. -/
theorem claim_C6_witness :
    cmdsOf (handlePendantPhysicalButtons 100000 100 true false true
        ⟨0, true, true, false⟩ ⟨0, false, true, false⟩ ⟨0, true, true, false⟩
        pendant0).2.2 =
      [if pendant0.machine.status = "ALARM" then Cmd.clearAlarm
       else Cmd.feedHold] ∧
    (handlePendantPhysicalButtons 100000 100 true false true
        ⟨0, true, true, false⟩ ⟨0, false, true, false⟩ ⟨0, true, true, false⟩
        pendant0).2.1.machine.status =
      (if pendant0.machine.status = "ALARM" then "IDLE" else "HOLD") :=
  claim_C6 100000 100 false ⟨0, true, true, false⟩ ⟨0, false, true, false⟩
    ⟨0, true, true, false⟩ pendant0 (by decide)

theorem drawCurrentPendantScreen_prefs (heap : Nat) (s : PendantState) :
    (drawCurrentPendantScreen heap s).1.prefs = s.prefs := by
  rw [drawCurrentPendantScreen]
  dsimp only
  split <;> rfl

/-- Claim C7: on the FluidNC (connection-info) screen, an accepted
encoder tick (CLK high-to-low, outside the 300 ms window) toggles the
rotation between exactly the two values 2 (normal) and 0 (upside down),
persists the new value under the "rotation" key, and triggers a full
repaint; a simulated restart (setup_pendant reading the store) restores
exactly the just-written value. -/
theorem claim_C7 (heap t : Nat) (clk dt : Bool) (e : EncRotSt)
    (s : PendantState)
    (hscr : s.current = Screen.fluidNC) (hls : e.lastScreen = Screen.fluidNC)
    (hclk : e.lastEncoderCLK = true) (hc : clk = false)
    (ht : t - e.lastRotationTime > 300)
    (hrot : s.machine.rotation = 0 ∨ s.machine.rotation = 2) :
    ((encoderRotationStep heap t clk dt e s).2.1.machine.rotation =
       if s.machine.rotation = 2 then 0 else 2) ∧
    ((encoderRotationStep heap t clk dt e s).2.1.machine.rotation = 0 ∨
     (encoderRotationStep heap t clk dt e s).2.1.machine.rotation = 2) ∧
    (encoderRotationStep heap t clk dt e s).2.1.machine.rotation ≠
      s.machine.rotation ∧
    getInt (encoderRotationStep heap t clk dt e s).2.1.prefs "rotation" 2 =
      (encoderRotationStep heap t clk dt e s).2.1.machine.rotation ∧
    Ev.fullRepaint s.current ∈ (encoderRotationStep heap t clk dt e s).2.2 ∧
    (setupPendantRotation (encoderRotationStep heap t clk dt e s).2.1.prefs
        pendantMachine0).rotation =
      (encoderRotationStep heap t clk dt e s).2.1.machine.rotation := by
  subst hc
  rcases hrot with h0 | h2
  · simp [encoderRotationStep, hscr, hls, hclk, ht, h0, getInt, putInt,
      setupPendantRotation, drawCurrentPendantScreen_evs,
      drawCurrentPendantScreen_machine, drawCurrentPendantScreen_prefs,
      drawCurrentPendantScreen_current]
  · simp [encoderRotationStep, hscr, hls, hclk, ht, h2, getInt, putInt,
      setupPendantRotation, drawCurrentPendantScreen_evs,
      drawCurrentPendantScreen_machine, drawCurrentPendantScreen_prefs,
      drawCurrentPendantScreen_current]

/-- A state sitting on the FluidNC screen with the startup machine
record (rotation 2). -/
def fluidNCState : PendantState :=
  { pendant0 with current := Screen.fluidNC, previous := Screen.fluidNC }

/-- Witness for claim C7: a concrete accepted tick on the FluidNC screen
toggles rotation 2 to 0, persists it, repaints, and a simulated restart
reads 0 back. -/
theorem claim_C7_witness :
    ((encoderRotationStep 100000 400 false true ⟨true, 0, Screen.fluidNC⟩
        fluidNCState).2.1.machine.rotation =
       if fluidNCState.machine.rotation = 2 then 0 else 2) ∧
    ((encoderRotationStep 100000 400 false true ⟨true, 0, Screen.fluidNC⟩
        fluidNCState).2.1.machine.rotation = 0 ∨
     (encoderRotationStep 100000 400 false true ⟨true, 0, Screen.fluidNC⟩
        fluidNCState).2.1.machine.rotation = 2) ∧
    (encoderRotationStep 100000 400 false true ⟨true, 0, Screen.fluidNC⟩
        fluidNCState).2.1.machine.rotation ≠ fluidNCState.machine.rotation ∧
    getInt (encoderRotationStep 100000 400 false true ⟨true, 0, Screen.fluidNC⟩
        fluidNCState).2.1.prefs "rotation" 2 =
      (encoderRotationStep 100000 400 false true ⟨true, 0, Screen.fluidNC⟩
        fluidNCState).2.1.machine.rotation ∧
    Ev.fullRepaint fluidNCState.current ∈
      (encoderRotationStep 100000 400 false true ⟨true, 0, Screen.fluidNC⟩
        fluidNCState).2.2 ∧
    (setupPendantRotation (encoderRotationStep 100000 400 false true
        ⟨true, 0, Screen.fluidNC⟩ fluidNCState).2.1.prefs
        pendantMachine0).rotation =
      (encoderRotationStep 100000 400 false true ⟨true, 0, Screen.fluidNC⟩
        fluidNCState).2.1.machine.rotation :=
  claim_C7 100000 400 false true ⟨true, 0, Screen.fluidNC⟩ fluidNCState
    rfl rfl rfl rfl (by decide) (Or.inr rfl)

/-- The five feed-override button rectangles, in checking order. -/
def feedOverrideRegion : Nat → Int × Int
  | 0 => (5, 95)
  | 1 => (83, 95)
  | 2 => (161, 95)
  | 3 => (5, 137)
  | _ => (161, 137)

/-- The five spindle-override button rectangles, in checking order. -/
def spindleOverrideRegion : Nat → Int × Int
  | 0 => (5, 194)
  | 1 => (83, 194)
  | 2 => (161, 194)
  | 3 => (5, 236)
  | _ => (161, 236)

/-- Claim C8: on the Feeds & Speeds screen, touching feed-override
(respectively spindle-override) button i sets the corresponding override
value to the i-th entry of the 50/75/100/125/150 table, and the cached
readout sprite subsequently rendered for that override prints exactly
that value. -/
theorem claim_C8 (s : PendantState) (x y : Int) (i : Nat) (hi : i < 5)
    (hscr : s.current = Screen.feedsSpeeds)
    (hspr : s.sprites.spritesInit = true) :
    (inB x y (feedOverrideRegion i).1 (feedOverrideRegion i).2 72 37 →
      (handleFeedsSpeedsTouch s x y).1.machine.feedOverride =
        overridePercents.getD i 0 ∧
      (handleFeedsSpeedsTouch s x y).1.feeds.selectedFeedOverride = i ∧
      Ev.sprintI SpriteId.axisDisplay (overridePercents.getD i 0) ∈
        updateFeedOverrideDisplay (handleFeedsSpeedsTouch s x y).1) ∧
    (inB x y (spindleOverrideRegion i).1 (spindleOverrideRegion i).2 72 37 →
      (handleFeedsSpeedsTouch s x y).1.machine.spindleOverride =
        overridePercents.getD i 0 ∧
      (handleFeedsSpeedsTouch s x y).1.feeds.selectedSpindleOverride = i ∧
      Ev.sprintI SpriteId.valueDisplay (overridePercents.getD i 0) ∈
        updateSpindleOverrideDisplay (handleFeedsSpeedsTouch s x y).1) := by
  interval_cases i
  · constructor
    · intro hin
      simp only [feedOverrideRegion, inB] at hin
      obtain ⟨hx1, hx2, hy1, hy2⟩ := hin
      rw [handleFeedsSpeedsTouch,
        if_pos (show inB x y 5 95 72 37 by simp only [inB]; omega)]
      refine ⟨rfl, rfl, ?_⟩
      simp [updateFeedOverrideDisplay, feedOverrideHit, hscr, hspr]
    · intro hin
      simp only [spindleOverrideRegion, inB] at hin
      obtain ⟨hx1, hx2, hy1, hy2⟩ := hin
      rw [handleFeedsSpeedsTouch,
        if_neg (show ¬ inB x y 5 95 72 37 by simp only [inB]; omega),
        if_neg (show ¬ inB x y 83 95 72 37 by simp only [inB]; omega),
        if_neg (show ¬ inB x y 161 95 72 37 by simp only [inB]; omega),
        if_neg (show ¬ inB x y 5 137 72 37 by simp only [inB]; omega),
        if_neg (show ¬ inB x y 161 137 72 37 by simp only [inB]; omega),
        if_pos (show inB x y 5 194 72 37 by simp only [inB]; omega)]
      refine ⟨rfl, rfl, ?_⟩
      simp [updateSpindleOverrideDisplay, spindleOverrideHit, hscr, hspr]
  · constructor
    · intro hin
      simp only [feedOverrideRegion, inB] at hin
      obtain ⟨hx1, hx2, hy1, hy2⟩ := hin
      rw [handleFeedsSpeedsTouch,
        if_neg (show ¬ inB x y 5 95 72 37 by simp only [inB]; omega),
        if_pos (show inB x y 83 95 72 37 by simp only [inB]; omega)]
      refine ⟨rfl, rfl, ?_⟩
      simp [updateFeedOverrideDisplay, feedOverrideHit, hscr, hspr]
    · intro hin
      simp only [spindleOverrideRegion, inB] at hin
      obtain ⟨hx1, hx2, hy1, hy2⟩ := hin
      rw [handleFeedsSpeedsTouch,
        if_neg (show ¬ inB x y 5 95 72 37 by simp only [inB]; omega),
        if_neg (show ¬ inB x y 83 95 72 37 by simp only [inB]; omega),
        if_neg (show ¬ inB x y 161 95 72 37 by simp only [inB]; omega),
        if_neg (show ¬ inB x y 5 137 72 37 by simp only [inB]; omega),
        if_neg (show ¬ inB x y 161 137 72 37 by simp only [inB]; omega),
        if_neg (show ¬ inB x y 5 194 72 37 by simp only [inB]; omega),
        if_pos (show inB x y 83 194 72 37 by simp only [inB]; omega)]
      refine ⟨rfl, rfl, ?_⟩
      simp [updateSpindleOverrideDisplay, spindleOverrideHit, hscr, hspr]
  · constructor
    · intro hin
      simp only [feedOverrideRegion, inB] at hin
      obtain ⟨hx1, hx2, hy1, hy2⟩ := hin
      rw [handleFeedsSpeedsTouch,
        if_neg (show ¬ inB x y 5 95 72 37 by simp only [inB]; omega),
        if_neg (show ¬ inB x y 83 95 72 37 by simp only [inB]; omega),
        if_pos (show inB x y 161 95 72 37 by simp only [inB]; omega)]
      refine ⟨rfl, rfl, ?_⟩
      simp [updateFeedOverrideDisplay, feedOverrideHit, hscr, hspr]
    · intro hin
      simp only [spindleOverrideRegion, inB] at hin
      obtain ⟨hx1, hx2, hy1, hy2⟩ := hin
      rw [handleFeedsSpeedsTouch,
        if_neg (show ¬ inB x y 5 95 72 37 by simp only [inB]; omega),
        if_neg (show ¬ inB x y 83 95 72 37 by simp only [inB]; omega),
        if_neg (show ¬ inB x y 161 95 72 37 by simp only [inB]; omega),
        if_neg (show ¬ inB x y 5 137 72 37 by simp only [inB]; omega),
        if_neg (show ¬ inB x y 161 137 72 37 by simp only [inB]; omega),
        if_neg (show ¬ inB x y 5 194 72 37 by simp only [inB]; omega),
        if_neg (show ¬ inB x y 83 194 72 37 by simp only [inB]; omega),
        if_pos (show inB x y 161 194 72 37 by simp only [inB]; omega)]
      refine ⟨rfl, rfl, ?_⟩
      simp [updateSpindleOverrideDisplay, spindleOverrideHit, hscr, hspr]
  · constructor
    · intro hin
      simp only [feedOverrideRegion, inB] at hin
      obtain ⟨hx1, hx2, hy1, hy2⟩ := hin
      rw [handleFeedsSpeedsTouch,
        if_neg (show ¬ inB x y 5 95 72 37 by simp only [inB]; omega),
        if_neg (show ¬ inB x y 83 95 72 37 by simp only [inB]; omega),
        if_neg (show ¬ inB x y 161 95 72 37 by simp only [inB]; omega),
        if_pos (show inB x y 5 137 72 37 by simp only [inB]; omega)]
      refine ⟨rfl, rfl, ?_⟩
      simp [updateFeedOverrideDisplay, feedOverrideHit, hscr, hspr]
    · intro hin
      simp only [spindleOverrideRegion, inB] at hin
      obtain ⟨hx1, hx2, hy1, hy2⟩ := hin
      rw [handleFeedsSpeedsTouch,
        if_neg (show ¬ inB x y 5 95 72 37 by simp only [inB]; omega),
        if_neg (show ¬ inB x y 83 95 72 37 by simp only [inB]; omega),
        if_neg (show ¬ inB x y 161 95 72 37 by simp only [inB]; omega),
        if_neg (show ¬ inB x y 5 137 72 37 by simp only [inB]; omega),
        if_neg (show ¬ inB x y 161 137 72 37 by simp only [inB]; omega),
        if_neg (show ¬ inB x y 5 194 72 37 by simp only [inB]; omega),
        if_neg (show ¬ inB x y 83 194 72 37 by simp only [inB]; omega),
        if_neg (show ¬ inB x y 161 194 72 37 by simp only [inB]; omega),
        if_pos (show inB x y 5 236 72 37 by simp only [inB]; omega)]
      refine ⟨rfl, rfl, ?_⟩
      simp [updateSpindleOverrideDisplay, spindleOverrideHit, hscr, hspr]
  · constructor
    · intro hin
      simp only [feedOverrideRegion, inB] at hin
      obtain ⟨hx1, hx2, hy1, hy2⟩ := hin
      rw [handleFeedsSpeedsTouch,
        if_neg (show ¬ inB x y 5 95 72 37 by simp only [inB]; omega),
        if_neg (show ¬ inB x y 83 95 72 37 by simp only [inB]; omega),
        if_neg (show ¬ inB x y 161 95 72 37 by simp only [inB]; omega),
        if_neg (show ¬ inB x y 5 137 72 37 by simp only [inB]; omega),
        if_pos (show inB x y 161 137 72 37 by simp only [inB]; omega)]
      refine ⟨rfl, rfl, ?_⟩
      simp [updateFeedOverrideDisplay, feedOverrideHit, hscr, hspr]
    · intro hin
      simp only [spindleOverrideRegion, inB] at hin
      obtain ⟨hx1, hx2, hy1, hy2⟩ := hin
      rw [handleFeedsSpeedsTouch,
        if_neg (show ¬ inB x y 5 95 72 37 by simp only [inB]; omega),
        if_neg (show ¬ inB x y 83 95 72 37 by simp only [inB]; omega),
        if_neg (show ¬ inB x y 161 95 72 37 by simp only [inB]; omega),
        if_neg (show ¬ inB x y 5 137 72 37 by simp only [inB]; omega),
        if_neg (show ¬ inB x y 161 137 72 37 by simp only [inB]; omega),
        if_neg (show ¬ inB x y 5 194 72 37 by simp only [inB]; omega),
        if_neg (show ¬ inB x y 83 194 72 37 by simp only [inB]; omega),
        if_neg (show ¬ inB x y 161 194 72 37 by simp only [inB]; omega),
        if_neg (show ¬ inB x y 5 236 72 37 by simp only [inB]; omega),
        if_pos (show inB x y 161 236 72 37 by simp only [inB]; omega)]
      refine ⟨rfl, rfl, ?_⟩
      simp [updateSpindleOverrideDisplay, spindleOverrideHit, hscr, hspr]

/-- A state sitting on the Feeds & Speeds screen with its sprites bound. -/
def feedsScreenState : PendantState :=
  { pendant0 with current := Screen.feedsSpeeds, previous := Screen.feedsSpeeds,
                   sprites := initSpritesForScreen 100000 sprites0 Screen.feedsSpeeds }

/-- Witness for claim C8: touching the 50% feed-override button sets the
feed override to 50 and the readout sprite prints 50. -/
theorem claim_C8_witness :
    (handleFeedsSpeedsTouch feedsScreenState 40 100).1.machine.feedOverride =
      overridePercents.getD 0 0 ∧
    (handleFeedsSpeedsTouch feedsScreenState 40 100).1.feeds.selectedFeedOverride = 0 ∧
    Ev.sprintI SpriteId.axisDisplay (overridePercents.getD 0 0) ∈
      updateFeedOverrideDisplay (handleFeedsSpeedsTouch feedsScreenState 40 100).1 :=
  (claim_C8 feedsScreenState 40 100 0 (by decide) rfl (by decide)).1 (by decide)

/-- A state sitting on the Spindle Control screen with the startup
machine record (spindleRPM 12000). -/
def spindleScreenState : PendantState :=
  { pendant0 with current := Screen.spindleControl,
                  previous := Screen.spindleControl }

/-- Counterexample to claim C9: a touch on the 6000-RPM preset region of
the Spindle Control screen — an operation of the core's touch dispatcher
— changes the Telemetry Mirror field spindleRPM from 12000 to 6000. -/
theorem claim_C9_counterexample :
    spindleScreenState.machine.spindleRPM = 12000 ∧
    (handlePendantTouch 100000 spindleScreenState 40 190).1.machine.spindleRPM =
      6000 := by
  refine ⟨rfl, ?_⟩
  decide

/-- Claim C9 as amended: the Telemetry Mirror is not written only by the
external polling collaborator — the core's own input handlers write it:
the spindle-control touch handler writes spindleRPM (with the preset
selection), the feeds/speeds touch handler writes the feed override
(with the override selection), and the physical-button handler writes
the machine status on every press (red forces ALARM, yellow IDLE/HOLD,
green RUN).  The Selection State is likewise mutated by these handlers. -/
theorem claim_C9_amended :
    (∀ s : PendantState,
      (handleSpindleControlTouch s 40 190).1.machine.spindleRPM = 6000 ∧
      (handleSpindleControlTouch s 40 190).1.spindle.selectedPreset = 0) ∧
    (∀ s : PendantState,
      (handleFeedsSpeedsTouch s 40 100).1.machine.feedOverride = 50 ∧
      (handleFeedsSpeedsTouch s 40 100).1.feeds.selectedFeedOverride = 0) ∧
    (∀ m : MachineState, (buttonAction 0 m).1.status = "ALARM") ∧
    (∀ m : MachineState, (buttonAction 1 m).1.status =
      if m.status = "ALARM" then "IDLE" else "HOLD") ∧
    (∀ m : MachineState, (buttonAction 2 m).1.status = "RUN") := by
  refine ⟨?_, ?_, ?_, ?_, ?_⟩
  · intro s
    rw [handleSpindleControlTouch]
    dsimp only
    rw [if_pos (show inB 40 190 5 178 70 37 by decide)]
    exact ⟨rfl, rfl⟩
  · intro s
    rw [handleFeedsSpeedsTouch, if_pos (show inB 40 100 5 95 72 37 by decide)]
    exact ⟨rfl, rfl⟩
  · intro m
    rfl
  · intro m
    by_cases h : m.status = "ALARM" <;> simp [buttonAction, h]
  · intro m
    rfl

/-- Per-screen control-region tables, rectangles (x, y, w, h) listed in
the handlers' checking order. -/
def screenRegions : Screen → List (Int × Int × Int × Int)
  | Screen.mainMenu =>
      [(5, 115, 112, 47),
      (123, 115, 112, 47),
      (5, 167, 112, 47),
      (123, 167, 112, 47),
      (5, 219, 112, 47),
      (123, 219, 112, 47),
      (5, 271, 112, 47),
      (123, 271, 112, 47)]
  | Screen.status =>
      [(5, 280, 112, 40),
      (123, 280, 112, 40)]
  | Screen.jogHoming =>
      [(5, 115, 52, 38),
      (61, 115, 52, 38),
      (117, 115, 52, 38),
      (173, 115, 52, 38),
      (5, 173, 52, 38),
      (61, 173, 52, 38),
      (117, 173, 52, 38),
      (173, 173, 52, 38),
      (5, 231, 52, 38),
      (61, 231, 52, 38),
      (117, 231, 52, 38),
      (173, 231, 52, 38),
      (5, 277, 112, 40),
      (123, 277, 112, 40)]
  | Screen.probingWork =>
      [(5, 55, 52, 38),
      (61, 55, 52, 38),
      (117, 55, 52, 38),
      (173, 55, 52, 38),
      (5, 230, 46, 38),
      (52, 230, 46, 38),
      (99, 230, 46, 38),
      (146, 230, 46, 38),
      (193, 230, 46, 38),
      (5, 277, 112, 40),
      (123, 277, 112, 40)]
  | Screen.probing =>
      [(5, 116, 230, 38),
      (5, 159, 230, 38),
      (5, 280, 230, 40)]
  | Screen.feedsSpeeds =>
      [(5, 95, 72, 37),
      (83, 95, 72, 37),
      (161, 95, 72, 37),
      (5, 137, 72, 37),
      (161, 137, 72, 37),
      (5, 194, 72, 37),
      (83, 194, 72, 37),
      (161, 194, 72, 37),
      (5, 236, 72, 37),
      (161, 236, 72, 37),
      (5, 280, 230, 40)]
  | Screen.spindleControl =>
      [(5, 118, 112, 38),
      (123, 118, 112, 38),
      (5, 178, 70, 37),
      (80, 178, 70, 37),
      (155, 178, 70, 37),
      (5, 230, 112, 40),
      (123, 230, 112, 40),
      (5, 280, 230, 37)]
  | Screen.macroMenu =>
      [(5, 40, 112, 43),
      (123, 40, 112, 43),
      (5, 88, 112, 43),
      (123, 88, 112, 43),
      (5, 136, 112, 43),
      (123, 136, 112, 43),
      (5, 184, 112, 43),
      (123, 184, 112, 43),
      (5, 232, 112, 43),
      (123, 232, 112, 43),
      (5, 280, 230, 40)]
  | Screen.sdCard =>
      [(5, 40, 230, 40),
      (5, 84, 230, 40),
      (5, 128, 230, 40),
      (5, 172, 230, 40),
      (5, 216, 230, 40),
      (5, 240, 112, 38),
      (123, 240, 112, 38),
      (5, 282, 230, 38)]
  | Screen.fluidNC =>
      [(5, 264, 230, 40)]

/-- The touch point lies inside none of the screen's control regions. -/
def missesAll (x y : Int) (scr : Screen) : Bool :=
  (screenRegions scr).all fun r => !(decide (inB x y r.1 r.2.1 r.2.2.1 r.2.2.2))

/-- Claim C10: for every screen, an accepted touch point lying inside
none of the current screen's control regions leaves the whole pendant
state unchanged (current and previous screen, every selection structure,
the machine-state record, sprites, preferences), performs no drawing and
no repaint, and emits no command. -/
theorem claim_C10 (heap : Nat) (s : PendantState) (x y : Int)
    (hprev : s.previous = s.current)
    (hmiss : missesAll x y s.current = true) :
    handlePendantTouch heap s x y = (s, []) := by
  have hd : dispatchTouch heap s x y = (s, []) := by
    rw [dispatchTouch]
    cases hc : s.current <;> rw [hc] at hmiss <;>
      simp only [missesAll, screenRegions, List.all_cons, List.all_nil,
        Bool.and_eq_true, Bool.not_eq_true', decide_eq_false_iff_not,
        and_true] at hmiss
    case mainMenu =>
      obtain ⟨h1, h2, h3, h4, h5, h6, h7, h8⟩ := hmiss
      rw [handleMainMenuTouch, if_neg h1, if_neg h2, if_neg h3, if_neg h4, if_neg h5, if_neg h6, if_neg h7, if_neg h8]
    case status =>
      obtain ⟨h1, h2⟩ := hmiss
      rw [if_neg h1, if_neg h2]
    case jogHoming =>
      obtain ⟨h1, h2, h3, h4, h5, h6, h7, h8, h9, h10, h11, h12, h13, h14⟩ := hmiss
      rw [handleJogHomingTouch, if_neg h1, if_neg h2, if_neg h3, if_neg h4, if_neg h5, if_neg h6, if_neg h7, if_neg h8, if_neg h9, if_neg h10, if_neg h11, if_neg h12, if_neg h13, if_neg h14]
    case probingWork =>
      obtain ⟨h1, h2, h3, h4, h5, h6, h7, h8, h9, h10, h11⟩ := hmiss
      have hwz : workZeroCheck s x y = (s, []) := by
        rw [workZeroCheck, if_neg h5, if_neg h6, if_neg h7, if_neg h8, if_neg h9]
      rw [handleProbingWorkTouch]
      dsimp only
      rw [if_neg h1, if_neg h2, if_neg h3, if_neg h4, hwz, if_neg h10, if_neg h11]
    case probing =>
      obtain ⟨h1, h2, h3⟩ := hmiss
      rw [handleProbingTouch, if_neg h1, if_neg h2, if_neg h3]
    case feedsSpeeds =>
      obtain ⟨h1, h2, h3, h4, h5, h6, h7, h8, h9, h10, h11⟩ := hmiss
      rw [handleFeedsSpeedsTouch, if_neg h1, if_neg h2, if_neg h3, if_neg h4, if_neg h5, if_neg h6, if_neg h7, if_neg h8, if_neg h9, if_neg h10, if_neg h11]
    case spindleControl =>
      obtain ⟨h1, h2, h3, h4, h5, h6, h7, h8⟩ := hmiss
      have hdir : spindleDirectionCheck s x y = (s, []) := by
        rw [spindleDirectionCheck, if_neg h1, if_neg h2]
      have hss : spindleStartStopCheck (s, []) x y = (s, []) := by
        rw [spindleStartStopCheck, if_neg h6, if_neg h7]
      rw [handleSpindleControlTouch]
      dsimp only
      rw [hdir, if_neg h3, if_neg h4, if_neg h5, hss, if_neg h8]
    case macroMenu =>
      obtain ⟨h1, h2, h3, h4, h5, h6, h7, h8, h9, h10, h11⟩ := hmiss
      rw [handleMacrosTouch, if_neg h1, if_neg h2, if_neg h3, if_neg h4, if_neg h5, if_neg h6, if_neg h7, if_neg h8, if_neg h9, if_neg h10, if_neg h11]
    case sdCard =>
      obtain ⟨h1, h2, h3, h4, h5, h6, h7, h8⟩ := hmiss
      have hnav : sdNavCheck heap s x y = (s, []) := by
        rw [sdNavCheck, if_neg h6, if_neg h7]
      rw [handleSDCardTouch]
      dsimp only
      rw [if_neg h1, if_neg h2, if_neg h3, if_neg h4, if_neg h5, hnav, if_neg h8]
    case fluidNC =>
      rw [if_neg hmiss]
  rw [handlePendantTouch]
  dsimp only
  rw [hd]
  dsimp only
  rw [if_neg (show ¬ s.current ≠ s.previous from not_ne_iff.mpr hprev.symm)]

/-- Witness for claim C10: the point (0, 0) misses every main-menu
region, so a touch there from the startup state is a complete no-op. -/
theorem claim_C10_witness :
    handlePendantTouch 100000 pendant0 0 0 = (pendant0, []) :=
  claim_C10 100000 pendant0 0 0 rfl (by decide)
